import Mathlib

/-
Shallow embedding of src/VulkanTest/main.cpp (jcxz/VulkanTutorial), centred on
the frame lifecycle and swapchain-recreation state machine of
HelloTriangleApplication.  Pure C++ helpers become Lean functions; the stateful
frame loop becomes explicit state passing on an AppState record, and every
modelled driver/window call additionally appends an Event to a trace, so that
ordering properties of drawFrame, recreateSwapChain, mainLoop and cleanup can
be stated about the trace.  The external driver and window are nondeterministic
and are modelled as explicit inputs (acquire/submit/present status codes, the
acquired image index, the sizes successively observed by the minimized-window
poll loop, and the image count of a newly created swapchain).  Vulkan object
handles are opaque; they are modelled as natural numbers drawn from a
monotonically increasing per-application counter (nextHandle), so that a
freshly created object can be proved distinct from every previously created
one.  Fences are CPU-observable and are modelled by their synchronization
state: signaled, unsignaled (reset, with no submitted GPU work that would
signal it - an infinite-timeout wait on such a fence never returns), or
pending (GPU work submitted with this fence; the wait returns after the GPU
finishes, observing it signaled; vkDeviceWaitIdle also drains it to signaled).
-/

namespace VkModel

/-- main.cpp line 129: how many frames should be processed concurrently. -/
def MAX_FRAMES_IN_FLIGHT : Nat := 2

/-- main.cpp line 126. -/
def WIDTH : Nat := 800

/-- main.cpp line 127. -/
def HEIGHT : Nat := 600

/-- Timeout value std::numeric_limits of uint64_t max, passed to
vkWaitForFences and vkAcquireNextImageKHR in drawFrame. -/
def uint64Max : Nat := 2 ^ 64 - 1

/-- Status codes returned by the Vulkan driver.  The three codes drawFrame
inspects by name are distinguished; every other VkResult value (for example
VK_ERROR_DEVICE_LOST = -4) is carried abstractly as otherResult code. -/
inductive VkResult where
  | success
  | suboptimalKHR
  | errorOutOfDateKHR
  | otherResult (code : Int)
deriving DecidableEq, Repr

/-- CPU-visible synchronization state of one VkFence. -/
inductive FenceState where
  | signaled
  | unsignaled
  | pending
deriving DecidableEq, Repr

/-- vkDeviceWaitIdle finishes all submitted GPU work, so a fence attached to a
pending submission becomes signaled. -/
def signalPending : FenceState → FenceState
  | FenceState.pending => FenceState.signaled
  | st => st

/-- Observable driver/window calls made by the modelled part of the program,
in program order. -/
inductive Event where
  | pollFramebufferSize (w h : Nat)
  | deviceWaitIdle
  | destroyDescriptorPool
  | destroyUniformBuffer (h : Nat)
  | freeCommandBuffers (n : Nat)
  | destroyFramebuffer (h : Nat)
  | destroyPipeline
  | destroyPipelineLayout
  | destroyRenderPass
  | destroyImageView (h : Nat)
  | destroySwapchain
  | createSwapchain (imageCount w h : Nat)
  | createImageViews (n : Nat)
  | createRenderPass
  | createGraphicsPipeline
  | createFramebuffers (n : Nat)
  | createUniformBuffers (n : Nat)
  | createDescriptorPool
  | createDescriptorSets (n : Nat)
  | createCommandBuffers (n : Nat)
  | waitForFences (slot timeoutNs : Nat) (observedSignaled : Bool)
  | acquireNextImage (slot : Nat) (res : VkResult)
  | updateUniform (imageIndex : Nat)
  | resetFences (slot : Nat)
  | queueSubmit (slot imageIndex : Nat)
  | queuePresent (imageIndex : Nat) (res : VkResult)
  | pollEvents
  | destroySemaphore (h : Nat)
  | destroyFence (h : Nat)
  | destroyCommandPool
deriving DecidableEq, Repr

/-- The mutable state of HelloTriangleApplication that the claims concern:
the frame-slot index m_currentFrame, the resize flag m_framebufferResized,
the per-slot synchronization objects and the swapchain-sized object vectors.
Handles are Nats drawn from nextHandle. -/
structure AppState where
  currentFrame : Nat
  framebufferResized : Bool
  imageAvailableSemaphores : List Nat
  renderFinishedSemaphores : List Nat
  inFlightFenceHandles : List Nat
  inFlightFenceStates : List FenceState
  swapChainImages : List Nat
  swapChainImageViews : List Nat
  swapChainFramebuffers : List Nat
  uniformBuffers : List Nat
  commandBuffers : List Nat
  nextHandle : Nat
deriving DecidableEq, Repr

/-- Allocate k fresh handles. -/
def allocN (k : Nat) (s : AppState) : List Nat × AppState :=
  ((List.range k).map (fun i => s.nextHandle + i),
   { s with nextHandle := s.nextHandle + k })

/-- createSyncObjects (main.cpp 1896-1930): resizes the three vectors to
MAX_FRAMES_IN_FLIGHT and, per slot, creates an image-available semaphore, a
render-finished semaphore and a fence with VK_FENCE_CREATE_SIGNALED_BIT
(main.cpp 1908), so every fence starts signaled. -/
def createSyncObjects (s : AppState) : AppState :=
  { s with
    imageAvailableSemaphores :=
      (List.range MAX_FRAMES_IN_FLIGHT).map (fun i => s.nextHandle + 3 * i),
    renderFinishedSemaphores :=
      (List.range MAX_FRAMES_IN_FLIGHT).map (fun i => s.nextHandle + 3 * i + 1),
    inFlightFenceHandles :=
      (List.range MAX_FRAMES_IN_FLIGHT).map (fun i => s.nextHandle + 3 * i + 2),
    inFlightFenceStates := List.replicate MAX_FRAMES_IN_FLIGHT FenceState.signaled,
    nextHandle := s.nextHandle + 3 * MAX_FRAMES_IN_FLIGHT }

/-- createSwapChain (main.cpp 683-758): creates the swapchain for the given
extent and retrieves imageCount image handles into m_swapChainImages.  The
image count is chosen by the driver (from the surface capabilities), so it is
an input here. -/
def createSwapChainM (extent : Nat × Nat) (imageCount : Nat) (s : AppState) :
    AppState × List Event :=
  let a := allocN imageCount s
  ({ a.2 with swapChainImages := a.1 },
   [Event.createSwapchain imageCount extent.1 extent.2])

/-- createImageViews (main.cpp 912-920): one image view per swapchain image. -/
def createImageViewsM (s : AppState) : AppState × List Event :=
  let a := allocN s.swapChainImages.length s
  ({ a.2 with swapChainImageViews := a.1 },
   [Event.createImageViews s.swapChainImages.length])

/-- createRenderPass: the render-pass handle is not tracked in AppState; only
the creation event matters for the rebuild-order claims. -/
def createRenderPassM (s : AppState) : AppState × List Event :=
  (s, [Event.createRenderPass])

/-- createGraphicsPipeline: creates the pipeline layout and the pipeline. -/
def createGraphicsPipelineM (s : AppState) : AppState × List Event :=
  (s, [Event.createGraphicsPipeline])

/-- createFramebuffers (main.cpp 1206-1233): one framebuffer per image view. -/
def createFramebuffersM (s : AppState) : AppState × List Event :=
  let a := allocN s.swapChainImageViews.length s
  ({ a.2 with swapChainFramebuffers := a.1 },
   [Event.createFramebuffers s.swapChainImageViews.length])

/-- createUniformBuffers (main.cpp 1709-1725): one uniform buffer per
swapchain image. -/
def createUniformBuffersM (s : AppState) : AppState × List Event :=
  let a := allocN s.swapChainImages.length s
  ({ a.2 with uniformBuffers := a.1 },
   [Event.createUniformBuffers s.swapChainImages.length])

/-- createDescriptorPool (main.cpp 1727-1746). -/
def createDescriptorPoolM (s : AppState) : AppState × List Event :=
  (s, [Event.createDescriptorPool])

/-- createDescriptorSets (main.cpp 1748-1814): one set per swapchain image,
freed with the pool, so not tracked as handles. -/
def createDescriptorSetsM (s : AppState) : AppState × List Event :=
  (s, [Event.createDescriptorSets s.swapChainImages.length])

/-- createCommandBuffers (main.cpp 1816-1894): one command buffer per
framebuffer belonging to the current swapchain. -/
def createCommandBuffersM (s : AppState) : AppState × List Event :=
  let a := allocN s.swapChainFramebuffers.length s
  ({ a.2 with commandBuffers := a.1 },
   [Event.createCommandBuffers s.swapChainFramebuffers.length])

/-- The creation sequence shared by initVulkan (main.cpp 355-424, restricted
to the modelled swapchain-sized objects) and recreateSwapChain (main.cpp
1988-1996): swapchain, image views, render pass, graphics pipeline,
framebuffers, uniform buffers, descriptor pool, descriptor sets, command
buffers, in that order. -/
def createChainResources (extent : Nat × Nat) (imageCount : Nat) (s : AppState) :
    AppState × List Event :=
  let r1 := createSwapChainM extent imageCount s
  let r2 := createImageViewsM r1.1
  let r3 := createRenderPassM r2.1
  let r4 := createGraphicsPipelineM r3.1
  let r5 := createFramebuffersM r4.1
  let r6 := createUniformBuffersM r5.1
  let r7 := createDescriptorPoolM r6.1
  let r8 := createDescriptorSetsM r7.1
  let r9 := createCommandBuffersM r8.1
  (r9.1, r1.2 ++ r2.2 ++ r3.2 ++ r4.2 ++ r5.2 ++ r6.2 ++ r7.2 ++ r8.2 ++ r9.2)

/-- cleanupSwapChain (main.cpp 1937-1968): destroys, in source order, the
descriptor pool, the per-image uniform buffers (one loop iteration per
swapchain image), the command buffers, the framebuffers, the pipeline, the
pipeline layout, the render pass, the image views and the swapchain.  The
vectors themselves are not cleared by the C++ code (the destroyed handles stay
in them until the following create calls overwrite them), so the state is
returned unchanged. -/
def cleanupSwapChain (s : AppState) : AppState × List Event :=
  (s,
   Event.destroyDescriptorPool ::
     ((List.range s.swapChainImages.length).map
        (fun i => Event.destroyUniformBuffer (s.uniformBuffers.getD i 0)) ++
      [Event.freeCommandBuffers s.commandBuffers.length] ++
      s.swapChainFramebuffers.map Event.destroyFramebuffer ++
      [Event.destroyPipeline, Event.destroyPipelineLayout, Event.destroyRenderPass] ++
      s.swapChainImageViews.map Event.destroyImageView ++
      [Event.destroySwapchain]))

/-- The minimized-window loop of recreateSwapChain (main.cpp 1977-1982):
width = height = 0 initially, so the loop body runs at least once; each
iteration calls glfwGetFramebufferSize (observing one sample of the input
list) and glfwWaitEvents, and the loop exits at the first sample with both
dimensions non-zero.  If every available sample is zero the loop never exits
(the real program keeps blocking in glfwWaitEvents): the result is none and
the trace records every consumed sample. -/
def pollLoop : List (Nat × Nat) → List Event × Option (Nat × Nat)
  | [] => ([], none)
  | p :: rest =>
    if p.1 ≠ 0 ∧ p.2 ≠ 0 then
      ([Event.pollFramebufferSize p.1 p.2], some p)
    else
      let r := pollLoop rest
      (Event.pollFramebufferSize p.1 p.2 :: r.1, r.2)

/-- vkDeviceWaitIdle: all submitted GPU work completes, so pending fences
become signaled. -/
def deviceWaitIdleF (s : AppState) : AppState :=
  { s with inFlightFenceStates := s.inFlightFenceStates.map signalPending }

/-- Outcome of running a piece of the application: normal completion, a C++
exception carrying its fixed message (it propagates to main), or a wait that
never returns. -/
inductive Step where
  | ok (s : AppState)
  | thrown (msg : String)
  | blocked
deriving DecidableEq, Repr

/-- True exactly on a normal completion. -/
def Step.isOk : Step → Bool
  | Step.ok _ => true
  | _ => false

/-- Driver/window input consumed by one swapchain rebuild: the framebuffer
sizes successively observed by the minimized-window loop, and the image count
of the newly created swapchain. -/
structure RebuildEnv where
  polls : List (Nat × Nat)
  imageCount : Nat
deriving DecidableEq, Repr

/-- recreateSwapChain (main.cpp 1970-1999): block while the framebuffer size
is zero, then vkDeviceWaitIdle, then cleanupSwapChain, then recreate the whole
chain from the current window dimensions.  (The C++ creation calls can also
throw on driver failure; creation is modelled as succeeding, which is the path
every claim is about.) -/
def recreateSwapChain (env : RebuildEnv) (s : AppState) : Step × List Event :=
  match pollLoop env.polls with
  | (ptr, none) => (Step.blocked, ptr)
  | (ptr, some sz) =>
    let s1 := deviceWaitIdleF s
    let cl := cleanupSwapChain s1
    let cr := createChainResources sz env.imageCount cl.1
    (Step.ok cr.1, ptr ++ Event.deviceWaitIdle :: (cl.2 ++ cr.2))

/-- Driver input consumed by one drawFrame iteration. -/
structure FrameInput where
  acquireResult : VkResult
  imageIndex : Nat
  submitResult : VkResult
  presentResult : VkResult
  rebuildEnv : RebuildEnv
deriving DecidableEq, Repr

/-- State of the application right after the vkQueueSubmit of drawFrame: the
current slot fence was reset to unsignaled (main.cpp 2051) and then attached
to the submitted batch (main.cpp 2070), so it is pending. -/
def afterSubmit (s : AppState) : AppState :=
  { s with
    inFlightFenceStates :=
      (s.inFlightFenceStates.set s.currentFrame FenceState.unsignaled).set
        s.currentFrame FenceState.pending }

/-- drawFrame after the initial vkWaitForFences (main.cpp 2030-2107): acquire
(early rebuild-and-return on VK_ERROR_OUT_OF_DATE_KHR, throw on anything other
than success or VK_SUBOPTIMAL_KHR), updateUniformBuffer, vkResetFences,
vkQueueSubmit with the slot fence (throw on failure), vkQueuePresentKHR, then
rebuild if the present result is out-of-date or suboptimal or the resize flag
is set (clearing the flag afterwards), else throw on any other non-success
present result, and finally advance m_currentFrame modulo
MAX_FRAMES_IN_FLIGHT. -/
def drawFrameAcquired (inp : FrameInput) (s : AppState) : Step × List Event :=
  if inp.acquireResult = VkResult.errorOutOfDateKHR then
    ((recreateSwapChain inp.rebuildEnv s).1,
     Event.acquireNextImage s.currentFrame inp.acquireResult ::
       (recreateSwapChain inp.rebuildEnv s).2)
  else if inp.acquireResult ≠ VkResult.success ∧ inp.acquireResult ≠ VkResult.suboptimalKHR then
    (Step.thrown "Failed to acquire swap chain image!",
     [Event.acquireNextImage s.currentFrame inp.acquireResult])
  else if inp.submitResult ≠ VkResult.success then
    (Step.thrown "Failed to submit draw command buffer!",
     [Event.acquireNextImage s.currentFrame inp.acquireResult,
      Event.updateUniform inp.imageIndex, Event.resetFences s.currentFrame,
      Event.queueSubmit s.currentFrame inp.imageIndex])
  else if inp.presentResult = VkResult.errorOutOfDateKHR ∨
          inp.presentResult = VkResult.suboptimalKHR ∨ s.framebufferResized = true then
    (match (recreateSwapChain inp.rebuildEnv (afterSubmit s)).1 with
     | Step.ok s3 =>
       Step.ok
         { s3 with
           framebufferResized := false
           currentFrame := (s.currentFrame + 1) % MAX_FRAMES_IN_FLIGHT }
     | out => out,
     Event.acquireNextImage s.currentFrame inp.acquireResult ::
     Event.updateUniform inp.imageIndex :: Event.resetFences s.currentFrame ::
     Event.queueSubmit s.currentFrame inp.imageIndex ::
     Event.queuePresent inp.imageIndex inp.presentResult ::
       (recreateSwapChain inp.rebuildEnv (afterSubmit s)).2)
  else if inp.presentResult ≠ VkResult.success then
    (Step.thrown "failed to present swap chain image!",
     [Event.acquireNextImage s.currentFrame inp.acquireResult,
      Event.updateUniform inp.imageIndex, Event.resetFences s.currentFrame,
      Event.queueSubmit s.currentFrame inp.imageIndex,
      Event.queuePresent inp.imageIndex inp.presentResult])
  else
    (Step.ok { (afterSubmit s) with
         currentFrame := (s.currentFrame + 1) % MAX_FRAMES_IN_FLIGHT },
     [Event.acquireNextImage s.currentFrame inp.acquireResult,
      Event.updateUniform inp.imageIndex, Event.resetFences s.currentFrame,
      Event.queueSubmit s.currentFrame inp.imageIndex,
      Event.queuePresent inp.imageIndex inp.presentResult])

/-- drawFrame (main.cpp 2018-2108).  It opens with vkWaitForFences on the
current slot fence with an effectively infinite timeout (main.cpp 2026): on a
fence that is neither signaled nor attached to pending GPU work, that wait
never returns (Step.blocked); otherwise it returns having observed the fence
signaled, and the rest of the iteration runs. -/
def drawFrame (inp : FrameInput) (s : AppState) : Step × List Event :=
  match s.inFlightFenceStates.getD s.currentFrame FenceState.unsignaled with
  | FenceState.unsignaled => (Step.blocked, [])
  | _ =>
    let s1 := { s with
      inFlightFenceStates := s.inFlightFenceStates.set s.currentFrame FenceState.signaled }
    let r := drawFrameAcquired inp s1
    (r.1, Event.waitForFences s.currentFrame uint64Max true :: r.2)

/-- framebufferResizeCallback (main.cpp 2243-2247): sets the resize flag. -/
def framebufferResizeCallback (s : AppState) : AppState :=
  { s with framebufferResized := true }

/-- glfwPollEvents, delivering some number of resize notifications, each of
which runs framebufferResizeCallback. -/
def pollEventsM (resizeEvents : Nat) (s : AppState) : AppState :=
  framebufferResizeCallback^[resizeEvents] s

/-- Window input consumed by one main-loop iteration: the close flag sampled
by glfwWindowShouldClose at the loop head, the number of resize notifications
delivered by glfwPollEvents, and the driver input for drawFrame. -/
structure LoopStep where
  shouldClose : Bool
  resizeEvents : Nat
  frame : FrameInput
deriving DecidableEq, Repr

/-- mainLoop (main.cpp 2005-2016): while the window close flag is unset, poll
events and run one full drawFrame; the close flag is sampled only at the loop
head, and after the loop exits the function performs vkDeviceWaitIdle.  The
infinite event stream is truncated to a finite list of per-iteration inputs;
an exhausted list ends the loop like a close request. -/
def mainLoop : List LoopStep → AppState → Step × List Event
  | [], s => (Step.ok (deviceWaitIdleF s), [Event.deviceWaitIdle])
  | st :: rest, s =>
    if st.shouldClose then
      (Step.ok (deviceWaitIdleF s), [Event.deviceWaitIdle])
    else
      match drawFrame st.frame (pollEventsM st.resizeEvents s) with
      | (Step.ok s2, dtr) =>
        ((mainLoop rest s2).1, Event.pollEvents :: (dtr ++ (mainLoop rest s2).2))
      | (out, dtr) => (out, Event.pollEvents :: dtr)

/-- cleanup (main.cpp 2134-2208), restricted to the modelled resources and in
source order: per slot the render-finished semaphore, the image-available
semaphore and the fence, then the command pool, descriptor pool, per-image
uniform buffers, framebuffers, pipeline, pipeline layout, render pass, image
views and the swapchain.  (The vertex/index buffers, texture objects, device,
surface and instance that follow are outside the modelled state.) -/
def cleanupTrace (s : AppState) : List Event :=
  ((List.range MAX_FRAMES_IN_FLIGHT).map (fun i =>
      [Event.destroySemaphore (s.renderFinishedSemaphores.getD i 0),
       Event.destroySemaphore (s.imageAvailableSemaphores.getD i 0),
       Event.destroyFence (s.inFlightFenceHandles.getD i 0)])).flatten ++
  [Event.destroyCommandPool, Event.destroyDescriptorPool] ++
  (List.range s.swapChainImages.length).map
     (fun i => Event.destroyUniformBuffer (s.uniformBuffers.getD i 0)) ++
  s.swapChainFramebuffers.map Event.destroyFramebuffer ++
  [Event.destroyPipeline, Event.destroyPipelineLayout, Event.destroyRenderPass] ++
  s.swapChainImageViews.map Event.destroyImageView ++
  [Event.destroySwapchain]

/-- State before initVulkan: all vectors empty, m_currentFrame = 0 (main.cpp
2341), m_framebufferResized = false (main.cpp 2345). -/
def initialAppState : AppState :=
  { currentFrame := 0, framebufferResized := false,
    imageAvailableSemaphores := [], renderFinishedSemaphores := [],
    inFlightFenceHandles := [], inFlightFenceStates := [],
    swapChainImages := [], swapChainImageViews := [], swapChainFramebuffers := [],
    uniformBuffers := [], commandBuffers := [], nextHandle := 0 }

/-- initVulkan (main.cpp 355-424), restricted to the modelled objects: the
swapchain-sized chain is created from the initial window size, then
createSyncObjects.  The driver chooses the initial swapchain image count. -/
def initApp (imageCount : Nat) : AppState :=
  createSyncObjects (createChainResources (WIDTH, HEIGHT) imageCount initialAppState).1

/-- run (main.cpp 328-334): initWindow/initVulkan, mainLoop, then cleanup. -/
def runApp (imageCount : Nat) (steps : List LoopStep) : Step × List Event :=
  let r := mainLoop steps (initApp imageCount)
  match r.1 with
  | Step.ok s => (Step.ok s, r.2 ++ cleanupTrace s)
  | out => (out, r.2)

/-- main (main.cpp 2371-2386): app.run() in a try block; a caught exception
has its message printed to stderr and main returns EXIT_FAILURE (1), otherwise
main returns EXIT_SUCCESS (0).  A run that never terminates (a wait that never
returns) yields no exit status: none. -/
def mainResult (imageCount : Nat) (steps : List LoopStep) :
    Option (Nat × Option String) :=
  match (runApp imageCount steps).1 with
  | Step.ok _ => some (0, none)
  | Step.thrown msg => some (1, some msg)
  | Step.blocked => none

/-- One entry of VkPhysicalDeviceMemoryProperties.memoryTypes. -/
structure VkMemoryType where
  propertyFlags : Nat
deriving DecidableEq, Repr

/-- Loop condition of findMemoryType (main.cpp 1369): bit i of typeFilter is
set and the type's propertyFlags contain every requested property bit. -/
def memTypeMatches (typeFilter properties : Nat) (i : Nat) (mt : VkMemoryType) : Bool :=
  typeFilter.testBit i && (Nat.land mt.propertyFlags properties == properties)

/-- Loop of findMemoryType (main.cpp 1367-1375), with i the absolute index of
the head of the remaining list. -/
def findMemoryTypeAux (typeFilter properties : Nat) :
    Nat → List VkMemoryType → Except String Nat
  | _, [] => Except.error "failed to find suitable memory type!"
  | i, mt :: rest =>
    if memTypeMatches typeFilter properties i mt then Except.ok i
    else findMemoryTypeAux typeFilter properties (i + 1) rest

/-- findMemoryType (main.cpp 1362-1376): scan the device memory types (an
input, queried from the physical device) from index 0 upward; return the first
matching index, or throw if none matches. -/
def findMemoryType (memoryTypes : List VkMemoryType) (typeFilter properties : Nat) :
    Except String Nat :=
  findMemoryTypeAux typeFilter properties 0 memoryTypes

/-- Image layouts named by transitionImageLayout; every other VkImageLayout
value is carried abstractly. -/
inductive VkImageLayout where
  | undefined
  | transferDstOptimal
  | shaderReadOnlyOptimal
  | otherLayout (code : Nat)
deriving DecidableEq, Repr

def VK_ACCESS_TRANSFER_WRITE_BIT : Nat := 0x00001000

def VK_ACCESS_SHADER_READ_BIT : Nat := 0x00000020

def VK_PIPELINE_STAGE_TOP_OF_PIPE_BIT : Nat := 0x00000001

def VK_PIPELINE_STAGE_TRANSFER_BIT : Nat := 0x00001000

def VK_PIPELINE_STAGE_FRAGMENT_SHADER_BIT : Nat := 0x00000080

/-- Access and stage masks chosen by transitionImageLayout. -/
structure BarrierMasks where
  srcAccessMask : Nat
  dstAccessMask : Nat
  srcStageMask : Nat
  dstStageMask : Nat
deriving DecidableEq, Repr

/-- Branching core of transitionImageLayout (main.cpp 1318-1339): the two
supported transitions select barrier masks, every other pair throws
std::invalid_argument. -/
def transitionImageLayoutMasks (oldLayout newLayout : VkImageLayout) :
    Except String BarrierMasks :=
  if oldLayout = VkImageLayout.undefined ∧ newLayout = VkImageLayout.transferDstOptimal then
    Except.ok ⟨0, VK_ACCESS_TRANSFER_WRITE_BIT,
               VK_PIPELINE_STAGE_TOP_OF_PIPE_BIT, VK_PIPELINE_STAGE_TRANSFER_BIT⟩
  else if oldLayout = VkImageLayout.transferDstOptimal ∧
          newLayout = VkImageLayout.shaderReadOnlyOptimal then
    Except.ok ⟨VK_ACCESS_TRANSFER_WRITE_BIT, VK_ACCESS_SHADER_READ_BIT,
               VK_PIPELINE_STAGE_TRANSFER_BIT, VK_PIPELINE_STAGE_FRAGMENT_SHADER_BIT⟩
  else
    Except.error "Unsupported layout transition!"

/-- States of the application reachable after initialization: the state right
after initVulkan, plus anything obtained by a completed drawFrame iteration or
by a resize notification. -/
inductive Reachable : AppState → Prop
  | init (imageCount : Nat) : Reachable (initApp imageCount)
  | draw (inp : FrameInput) (s s' : AppState) (tr : List Event) :
      Reachable s → drawFrame inp s = (Step.ok s', tr) → Reachable s'
  | resize (s : AppState) : Reachable s → Reachable (framebufferResizeCallback s)

/-- Structural invariant maintained by the application: the frame-slot index
is in range, the three synchronization vectors have MAX_FRAMES_IN_FLIGHT
entries, the per-image vectors all have one entry per swapchain image, no
in-flight fence is stuck unsignaled, and every stored handle is below the
allocation counter. -/
def Inv (s : AppState) : Prop :=
  s.currentFrame < MAX_FRAMES_IN_FLIGHT ∧
  s.imageAvailableSemaphores.length = MAX_FRAMES_IN_FLIGHT ∧
  s.renderFinishedSemaphores.length = MAX_FRAMES_IN_FLIGHT ∧
  s.inFlightFenceHandles.length = MAX_FRAMES_IN_FLIGHT ∧
  s.inFlightFenceStates.length = MAX_FRAMES_IN_FLIGHT ∧
  s.swapChainImageViews.length = s.swapChainImages.length ∧
  s.swapChainFramebuffers.length = s.swapChainImages.length ∧
  s.uniformBuffers.length = s.swapChainImages.length ∧
  s.commandBuffers.length = s.swapChainImages.length ∧
  (∀ st ∈ s.inFlightFenceStates, st ≠ FenceState.unsignaled) ∧
  (∀ h ∈ s.swapChainImages, h < s.nextHandle) ∧
  (∀ h ∈ s.swapChainImageViews, h < s.nextHandle) ∧
  (∀ h ∈ s.swapChainFramebuffers, h < s.nextHandle) ∧
  (∀ h ∈ s.uniformBuffers, h < s.nextHandle) ∧
  (∀ h ∈ s.commandBuffers, h < s.nextHandle)

end VkModel

namespace VkModel

/-- Handles produced by one allocation round lie in the allocated window. -/
theorem mem_range_map_base {n base h : Nat}
    (hm : h ∈ (List.range n).map (fun i => base + i)) : base ≤ h ∧ h < base + n := by
  rcases List.mem_map.1 hm with ⟨i, hi, rfl⟩
  have := List.mem_range.1 hi
  omega

/-- Closed form of the creation sequence: the five per-image vectors receive
consecutive blocks of fresh handles and the allocation counter advances by
five blocks; nothing else in the state changes. -/
theorem createChainResources_eq (extent : Nat × Nat) (n : Nat) (s : AppState) :
    createChainResources extent n s =
      ({ s with
         swapChainImages := (List.range n).map (fun i => s.nextHandle + i),
         swapChainImageViews := (List.range n).map (fun i => s.nextHandle + n + i),
         swapChainFramebuffers := (List.range n).map (fun i => s.nextHandle + n + n + i),
         uniformBuffers := (List.range n).map (fun i => s.nextHandle + n + n + n + i),
         commandBuffers := (List.range n).map (fun i => s.nextHandle + n + n + n + n + i),
         nextHandle := s.nextHandle + n + n + n + n + n },
       [Event.createSwapchain n extent.1 extent.2, Event.createImageViews n,
        Event.createRenderPass, Event.createGraphicsPipeline, Event.createFramebuffers n,
        Event.createUniformBuffers n, Event.createDescriptorPool,
        Event.createDescriptorSets n, Event.createCommandBuffers n]) := by
  simp [createChainResources, createSwapChainM, createImageViewsM, createRenderPassM,
        createGraphicsPipelineM, createFramebuffersM, createUniformBuffersM,
        createDescriptorPoolM, createDescriptorSetsM, createCommandBuffersM, allocN]

/-- Every sample the minimized-window loop consumes is a framebuffer-size
poll. -/
theorem pollLoop_trace_polls (ps : List (Nat × Nat)) :
    ∀ e ∈ (pollLoop ps).1, ∃ w h, e = Event.pollFramebufferSize w h := by
  induction ps with
  | nil => simp [pollLoop]
  | cons p rest ih =>
    by_cases hp : p.1 ≠ 0 ∧ p.2 ≠ 0
    · simp [pollLoop, hp]
    · simp only [pollLoop, if_neg hp]
      intro e he
      rcases List.mem_cons.1 he with rfl | he2
      · exact ⟨p.1, p.2, rfl⟩
      · exact ih e he2

/-- When the minimized-window loop exits, the size it found is non-zero and
every earlier sample had a zero dimension. -/
theorem pollLoop_some {ps : List (Nat × Nat)} {w h : Nat}
    (hs : (pollLoop ps).2 = some (w, h)) :
    w ≠ 0 ∧ h ≠ 0 ∧
    ∃ pre, (pollLoop ps).1 = pre ++ [Event.pollFramebufferSize w h] ∧
      ∀ e ∈ pre, ∃ w0 h0, e = Event.pollFramebufferSize w0 h0 ∧ (w0 = 0 ∨ h0 = 0) := by
  induction ps with
  | nil => simp [pollLoop] at hs
  | cons p rest ih =>
    by_cases hp : p.1 ≠ 0 ∧ p.2 ≠ 0
    · simp only [pollLoop, if_pos hp] at hs ⊢
      rcases hs with ⟨rfl, rfl⟩
      exact ⟨hp.1, hp.2, [], rfl, by simp⟩
    · simp only [pollLoop, if_neg hp] at hs ⊢
      rcases ih hs with ⟨hw, hh, pre, hpre, hzero⟩
      refine ⟨hw, hh, Event.pollFramebufferSize p.1 p.2 :: pre, by simp [hpre], ?_⟩
      intro e he
      rcases List.mem_cons.1 he with rfl | he2
      · exact ⟨p.1, p.2, rfl, by omega⟩
      · exact hzero e he2

end VkModel

namespace VkModel

/-- Kinds of events a swapchain rebuild can emit: size polls, the idle wait,
the destruction of swapchain-sized objects and their re-creation.  In
particular a rebuild never submits, never resets a fence and never destroys a
semaphore, a fence or the command pool. -/
def isRebuildEvent : Event → Bool
  | Event.pollFramebufferSize _ _ => true
  | Event.deviceWaitIdle => true
  | Event.destroyDescriptorPool => true
  | Event.destroyUniformBuffer _ => true
  | Event.freeCommandBuffers _ => true
  | Event.destroyFramebuffer _ => true
  | Event.destroyPipeline => true
  | Event.destroyPipelineLayout => true
  | Event.destroyRenderPass => true
  | Event.destroyImageView _ => true
  | Event.destroySwapchain => true
  | Event.createSwapchain _ _ _ => true
  | Event.createImageViews _ => true
  | Event.createRenderPass => true
  | Event.createGraphicsPipeline => true
  | Event.createFramebuffers _ => true
  | Event.createUniformBuffers _ => true
  | Event.createDescriptorPool => true
  | Event.createDescriptorSets _ => true
  | Event.createCommandBuffers _ => true
  | _ => false

theorem cleanupSwapChain_all (s : AppState) :
    ((cleanupSwapChain s).2.all isRebuildEvent) = true := by
  simp [cleanupSwapChain, List.all_append, List.all_map, isRebuildEvent, Function.comp]

theorem cleanupSwapChain_events (s : AppState) :
    ∀ e ∈ (cleanupSwapChain s).2, isRebuildEvent e = true :=
  List.all_eq_true.1 (cleanupSwapChain_all s)

theorem recreateSwapChain_events (env : RebuildEnv) (s : AppState) :
    ∀ e ∈ (recreateSwapChain env s).2, isRebuildEvent e = true := by
  intro e
  unfold recreateSwapChain
  split
  · rename_i ptr heq
    intro he
    have hptr : (pollLoop env.polls).1 = ptr := by rw [heq]
    rcases pollLoop_trace_polls env.polls e (by rw [hptr]; exact he) with ⟨w, h, rfl⟩
    rfl
  · rename_i ptr sz heq
    intro he
    have hptr : (pollLoop env.polls).1 = ptr := by rw [heq]
    simp only [List.mem_append, List.mem_cons] at he
    rcases he with hpoll | rfl | hcl | hcr
    · rcases pollLoop_trace_polls env.polls e (by rw [hptr]; exact hpoll) with ⟨w, h, rfl⟩
      rfl
    · rfl
    · exact cleanupSwapChain_events _ e hcl
    · rw [createChainResources_eq] at hcr
      simp only [List.mem_cons, List.not_mem_nil, or_false] at hcr
      rcases hcr with rfl | rfl | rfl | rfl | rfl | rfl | rfl | rfl | rfl <;> rfl

/-- State effect of a successful rebuild: the synchronization objects are kept
(only pending fences drain to signaled under the idle wait), the frame index
and resize flag are untouched, and the per-image vectors are replaced by
fresh-handle blocks of the new image count. -/
theorem recreateSwapChain_ok {env : RebuildEnv} {s s' : AppState} {tr : List Event}
    (hr : recreateSwapChain env s = (Step.ok s', tr)) :
    s'.currentFrame = s.currentFrame ∧
    s'.framebufferResized = s.framebufferResized ∧
    s'.imageAvailableSemaphores = s.imageAvailableSemaphores ∧
    s'.renderFinishedSemaphores = s.renderFinishedSemaphores ∧
    s'.inFlightFenceHandles = s.inFlightFenceHandles ∧
    s'.inFlightFenceStates = s.inFlightFenceStates.map signalPending ∧
    s'.swapChainImages.length = env.imageCount ∧
    s'.swapChainImageViews.length = env.imageCount ∧
    s'.swapChainFramebuffers.length = env.imageCount ∧
    s'.uniformBuffers.length = env.imageCount ∧
    s'.commandBuffers.length = env.imageCount ∧
    s.nextHandle ≤ s'.nextHandle ∧
    (∀ h ∈ s'.swapChainImages, s.nextHandle ≤ h ∧ h < s'.nextHandle) ∧
    (∀ h ∈ s'.swapChainImageViews, s.nextHandle ≤ h ∧ h < s'.nextHandle) ∧
    (∀ h ∈ s'.swapChainFramebuffers, s.nextHandle ≤ h ∧ h < s'.nextHandle) ∧
    (∀ h ∈ s'.uniformBuffers, s.nextHandle ≤ h ∧ h < s'.nextHandle) ∧
    (∀ h ∈ s'.commandBuffers, s.nextHandle ≤ h ∧ h < s'.nextHandle) := by
  unfold recreateSwapChain at hr
  split at hr
  · simp at hr
  · rename_i ptr sz heq
    simp only [cleanupSwapChain, createChainResources_eq, Prod.mk.injEq, Step.ok.injEq] at hr
    rcases hr with ⟨rfl, rfl⟩
    refine ⟨rfl, rfl, rfl, rfl, rfl, rfl, by simp, by simp, by simp, by simp, by simp,
      by simp [deviceWaitIdleF]; omega, ?_, ?_, ?_, ?_, ?_⟩
    all_goals
      intro h hm
      have hb := mem_range_map_base hm
      simp only [deviceWaitIdleF] at hb ⊢
      omega

end VkModel

namespace VkModel

/-- Abbreviation for the state right after the opening vkWaitForFences of
drawFrame: the current slot fence has been observed signaled. -/
def afterWait (s : AppState) : AppState :=
  { s with inFlightFenceStates := s.inFlightFenceStates.set s.currentFrame FenceState.signaled }

/-- When the current slot fence is signaled or pending, the opening wait of
drawFrame returns (observing the fence signaled) and the rest of the
iteration runs on the updated state. -/
theorem drawFrame_eq (inp : FrameInput) (s : AppState)
    (hne : s.inFlightFenceStates.getD s.currentFrame FenceState.unsignaled ≠
           FenceState.unsignaled) :
    drawFrame inp s =
      ((drawFrameAcquired inp (afterWait s)).1,
       Event.waitForFences s.currentFrame uint64Max true ::
         (drawFrameAcquired inp (afterWait s)).2) := by
  unfold drawFrame
  split
  · rename_i heq; exact absurd heq hne
  · rfl

/-- When the current slot fence is unsignaled (reset with no pending GPU
work), the opening wait of drawFrame never returns. -/
theorem drawFrame_unsignaled (inp : FrameInput) (s : AppState)
    (hu : s.inFlightFenceStates.getD s.currentFrame FenceState.unsignaled =
          FenceState.unsignaled) :
    drawFrame inp s = (Step.blocked, []) := by
  unfold drawFrame
  split
  · rfl
  · exact absurd hu (by assumption)

/-- A drawFrame call that completes normally did not start on an unsignaled
fence. -/
theorem drawFrame_fence_of_ok {inp : FrameInput} {s s' : AppState} {tr : List Event}
    (hrun : drawFrame inp s = (Step.ok s', tr)) :
    s.inFlightFenceStates.getD s.currentFrame FenceState.unsignaled ≠
      FenceState.unsignaled := by
  intro hu
  rw [drawFrame_unsignaled inp s hu] at hrun
  simp at hrun

theorem mem_set_ne_unsignaled {l : List FenceState} {i : Nat} {v : FenceState}
    (hl : ∀ st ∈ l, st ≠ FenceState.unsignaled) (hv : v ≠ FenceState.unsignaled) :
    ∀ st ∈ l.set i v, st ≠ FenceState.unsignaled := by
  intro st hm
  rcases List.mem_or_eq_of_mem_set hm with h | rfl
  · exact hl st h
  · exact hv

theorem map_signalPending_ne {l : List FenceState}
    (hl : ∀ st ∈ l, st ≠ FenceState.unsignaled) :
    ∀ st ∈ l.map signalPending, st ≠ FenceState.unsignaled := by
  intro st hm
  rcases List.mem_map.1 hm with ⟨a, ha, rfl⟩
  have h0 := hl a ha
  cases a with
  | signaled => simp [signalPending]
  | unsignaled => exact absurd rfl h0
  | pending => simp [signalPending]

end VkModel

namespace VkModel

theorem dfa_stale (inp : FrameInput) (s : AppState)
    (hacq : inp.acquireResult = VkResult.errorOutOfDateKHR) :
    drawFrameAcquired inp s =
      ((recreateSwapChain inp.rebuildEnv s).1,
       Event.acquireNextImage s.currentFrame VkResult.errorOutOfDateKHR ::
         (recreateSwapChain inp.rebuildEnv s).2) := by
  simp [drawFrameAcquired, hacq]

theorem dfa_acquire_fail {c : Int} (inp : FrameInput) (s : AppState)
    (hacq : inp.acquireResult = VkResult.otherResult c) :
    drawFrameAcquired inp s =
      (Step.thrown "Failed to acquire swap chain image!",
       [Event.acquireNextImage s.currentFrame inp.acquireResult]) := by
  simp [drawFrameAcquired, hacq]

theorem dfa_submit_fail (inp : FrameInput) (s : AppState)
    (hacq : inp.acquireResult = VkResult.success ∨ inp.acquireResult = VkResult.suboptimalKHR)
    (hsub : inp.submitResult ≠ VkResult.success) :
    drawFrameAcquired inp s =
      (Step.thrown "Failed to submit draw command buffer!",
       [Event.acquireNextImage s.currentFrame inp.acquireResult,
        Event.updateUniform inp.imageIndex, Event.resetFences s.currentFrame,
        Event.queueSubmit s.currentFrame inp.imageIndex]) := by
  rcases hacq with h | h <;> simp [drawFrameAcquired, h, hsub]

theorem dfa_present_rebuild_ok {inp : FrameInput} {s s3 : AppState} {rtr : List Event}
    (hacq : inp.acquireResult = VkResult.success ∨ inp.acquireResult = VkResult.suboptimalKHR)
    (hsub : inp.submitResult = VkResult.success)
    (hpr : inp.presentResult = VkResult.errorOutOfDateKHR ∨
           inp.presentResult = VkResult.suboptimalKHR ∨ s.framebufferResized = true)
    (hrec : recreateSwapChain inp.rebuildEnv (afterSubmit s) = (Step.ok s3, rtr)) :
    drawFrameAcquired inp s =
      (Step.ok
         { s3 with
           framebufferResized := false
           currentFrame := (s.currentFrame + 1) % MAX_FRAMES_IN_FLIGHT },
       Event.acquireNextImage s.currentFrame inp.acquireResult ::
       Event.updateUniform inp.imageIndex :: Event.resetFences s.currentFrame ::
       Event.queueSubmit s.currentFrame inp.imageIndex ::
       Event.queuePresent inp.imageIndex inp.presentResult :: rtr) := by
  have h1 : ¬ inp.acquireResult = VkResult.errorOutOfDateKHR := by
    rcases hacq with h | h <;> simp [h]
  have h2 : ¬(inp.acquireResult ≠ VkResult.success ∧ inp.acquireResult ≠ VkResult.suboptimalKHR) := by
    rcases hacq with h | h <;> simp [h]
  have h3 : ¬ inp.submitResult ≠ VkResult.success := by simp [hsub]
  unfold drawFrameAcquired
  rw [if_neg h1, if_neg h2, if_neg h3, if_pos hpr, hrec]

theorem dfa_present_fail {c : Int} (inp : FrameInput) (s : AppState)
    (hacq : inp.acquireResult = VkResult.success ∨ inp.acquireResult = VkResult.suboptimalKHR)
    (hsub : inp.submitResult = VkResult.success)
    (hpr : inp.presentResult = VkResult.otherResult c)
    (hflag : s.framebufferResized = false) :
    drawFrameAcquired inp s =
      (Step.thrown "failed to present swap chain image!",
       [Event.acquireNextImage s.currentFrame inp.acquireResult,
        Event.updateUniform inp.imageIndex, Event.resetFences s.currentFrame,
        Event.queueSubmit s.currentFrame inp.imageIndex,
        Event.queuePresent inp.imageIndex inp.presentResult]) := by
  rcases hacq with h | h <;> simp [drawFrameAcquired, h, hsub, hpr, hflag]

theorem dfa_present_success (inp : FrameInput) (s : AppState)
    (hacq : inp.acquireResult = VkResult.success ∨ inp.acquireResult = VkResult.suboptimalKHR)
    (hsub : inp.submitResult = VkResult.success)
    (hpr : inp.presentResult = VkResult.success)
    (hflag : s.framebufferResized = false) :
    drawFrameAcquired inp s =
      (Step.ok { (afterSubmit s) with
           currentFrame := (s.currentFrame + 1) % MAX_FRAMES_IN_FLIGHT },
       [Event.acquireNextImage s.currentFrame inp.acquireResult,
        Event.updateUniform inp.imageIndex, Event.resetFences s.currentFrame,
        Event.queueSubmit s.currentFrame inp.imageIndex,
        Event.queuePresent inp.imageIndex inp.presentResult]) := by
  rcases hacq with h | h <;> simp [drawFrameAcquired, h, hsub, hpr, hflag]

end VkModel

namespace VkModel

theorem inv_recreate {env : RebuildEnv} {s s' : AppState} {tr : List Event}
    (hinv : Inv s) (hr : recreateSwapChain env s = (Step.ok s', tr)) : Inv s' := by
  obtain ⟨hcf, h1, h2, h3, h4, _, _, _, _, hfen, _, _, _, _, _⟩ := hinv
  obtain ⟨e1, _, e3, e4, e5, e6, l1, l2, l3, l4, l5, _, m1, m2, m3, m4, m5⟩ :=
    recreateSwapChain_ok hr
  refine ⟨by rw [e1]; exact hcf, by rw [e3]; exact h1, by rw [e4]; exact h2,
    by rw [e5]; exact h3, by rw [e6]; simpa using h4,
    by rw [l1, l2], by rw [l1, l3], by rw [l1, l4], by rw [l1, l5],
    by rw [e6]; exact map_signalPending_ne hfen,
    fun h hm => (m1 h hm).2, fun h hm => (m2 h hm).2, fun h hm => (m3 h hm).2,
    fun h hm => (m4 h hm).2, fun h hm => (m5 h hm).2⟩

theorem inv_afterWait {s : AppState} (hinv : Inv s) : Inv (afterWait s) := by
  obtain ⟨hcf, h1, h2, h3, h4, h5, h6, h7, h8, hfen, m1, m2, m3, m4, m5⟩ := hinv
  exact ⟨hcf, h1, h2, h3, by simpa [afterWait] using h4, h5, h6, h7, h8,
    mem_set_ne_unsignaled hfen (by simp), m1, m2, m3, m4, m5⟩

theorem inv_afterSubmit {s : AppState} (hinv : Inv s) : Inv (afterSubmit s) := by
  obtain ⟨hcf, h1, h2, h3, h4, h5, h6, h7, h8, hfen, m1, m2, m3, m4, m5⟩ := hinv
  refine ⟨hcf, h1, h2, h3, by simpa [afterSubmit] using h4, h5, h6, h7, h8, ?_,
    m1, m2, m3, m4, m5⟩
  simp only [afterSubmit, List.set_set]
  exact mem_set_ne_unsignaled hfen (by simp)

theorem currentFrame_succ_lt (cf : Nat) :
    (cf + 1) % MAX_FRAMES_IN_FLIGHT < MAX_FRAMES_IN_FLIGHT :=
  Nat.mod_lt _ (by decide)

theorem drawFrameAcquired_ok_inv {inp : FrameInput} {s s' : AppState} {tr : List Event}
    (hinv : Inv s) (hrun : drawFrameAcquired inp s = (Step.ok s', tr)) : Inv s' := by
  unfold drawFrameAcquired at hrun
  split at hrun
  · rcases hq : recreateSwapChain inp.rebuildEnv s with ⟨st, rtr⟩
    rw [hq] at hrun
    cases st with
    | ok s2 =>
      simp only [Prod.mk.injEq, Step.ok.injEq] at hrun
      rcases hrun with ⟨rfl, rfl⟩
      exact inv_recreate hinv hq
    | thrown m => simp at hrun
    | blocked => simp at hrun
  · split at hrun
    · simp at hrun
    · split at hrun
      · simp at hrun
      · split at hrun
        · rcases hq : recreateSwapChain inp.rebuildEnv (afterSubmit s) with ⟨st, rtr⟩
          rw [hq] at hrun
          cases st with
          | ok s3 =>
            simp only [Prod.mk.injEq, Step.ok.injEq] at hrun
            rcases hrun with ⟨rfl, rfl⟩
            obtain ⟨hcf, h1, h2, h3, h4, h5, h6, h7, h8, hfen, m1, m2, m3, m4, m5⟩ :=
              inv_recreate (inv_afterSubmit hinv) hq
            exact ⟨currentFrame_succ_lt _, h1, h2, h3, h4, h5, h6, h7, h8, hfen,
              m1, m2, m3, m4, m5⟩
          | thrown m => simp at hrun
          | blocked => simp at hrun
        · split at hrun
          · simp at hrun
          · simp only [Prod.mk.injEq, Step.ok.injEq] at hrun
            rcases hrun with ⟨rfl, rfl⟩
            obtain ⟨hcf, h1, h2, h3, h4, h5, h6, h7, h8, hfen, m1, m2, m3, m4, m5⟩ :=
              inv_afterSubmit hinv
            exact ⟨currentFrame_succ_lt _, h1, h2, h3, h4, h5, h6, h7, h8, hfen,
              m1, m2, m3, m4, m5⟩

theorem drawFrame_ok_inv {inp : FrameInput} {s s' : AppState} {tr : List Event}
    (hinv : Inv s) (hrun : drawFrame inp s = (Step.ok s', tr)) : Inv s' := by
  have hne := drawFrame_fence_of_ok hrun
  rw [drawFrame_eq inp s hne] at hrun
  rcases hq : drawFrameAcquired inp (afterWait s) with ⟨st, tr2⟩
  rw [hq] at hrun
  simp only [Prod.mk.injEq] at hrun
  rcases hrun with ⟨h1, _⟩
  subst h1
  exact drawFrameAcquired_ok_inv (inv_afterWait hinv) hq

theorem inv_initApp (imageCount : Nat) : Inv (initApp imageCount) := by
  rw [initApp, createChainResources_eq, createSyncObjects]
  refine ⟨by simp [initialAppState, MAX_FRAMES_IN_FLIGHT], by simp, by simp,
    by simp, by simp, by simp, by simp, by simp, by simp,
    ?_, ?_, ?_, ?_, ?_, ?_⟩
  · intro st hm
    rw [List.eq_of_mem_replicate hm]
    simp
  all_goals
    intro h hm
    have hb := mem_range_map_base hm
    simp only [initialAppState] at hb ⊢
    omega

theorem inv_resize {s : AppState} (hinv : Inv s) : Inv (framebufferResizeCallback s) := by
  obtain ⟨hcf, h1, h2, h3, h4, h5, h6, h7, h8, hfen, m1, m2, m3, m4, m5⟩ := hinv
  exact ⟨hcf, h1, h2, h3, h4, h5, h6, h7, h8, hfen, m1, m2, m3, m4, m5⟩

/-- Every reachable application state satisfies the structural invariant. -/
theorem reachable_inv {s : AppState} (hr : Reachable s) : Inv s := by
  induction hr with
  | init imageCount => exact inv_initApp imageCount
  | draw inp s s' tr _ hrun ih => exact drawFrame_ok_inv ih hrun
  | resize s _ ih => exact inv_resize ih

end VkModel

namespace VkModel

/-- The loop condition of findMemoryType holds at absolute index i of the
device memory-type list. -/
def memTypeOk (typeFilter properties : Nat) (memoryTypes : List VkMemoryType)
    (i : Nat) : Prop :=
  i < memoryTypes.length ∧
  memTypeMatches typeFilter properties i (memoryTypes.getD i ⟨0⟩) = true

theorem findAux_ok {tf pr : Nat} :
    ∀ (l : List VkMemoryType) (k i : Nat),
    findMemoryTypeAux tf pr k l = Except.ok i →
    ∃ m, m < l.length ∧ i = k + m ∧
      memTypeMatches tf pr (k + m) (l.getD m ⟨0⟩) = true ∧
      ∀ m', m' < m → memTypeMatches tf pr (k + m') (l.getD m' ⟨0⟩) = false := by
  intro l
  induction l with
  | nil => intro k i h; simp [findMemoryTypeAux] at h
  | cons mt rest ih =>
    intro k i h
    by_cases hm : memTypeMatches tf pr k mt = true
    · rw [findMemoryTypeAux, if_pos hm] at h
      rcases h with h
      simp only [Except.ok.injEq] at h
      subst h
      exact ⟨0, by simp, by simp, by simpa using hm, by simp⟩
    · rw [findMemoryTypeAux, if_neg hm] at h
      rcases ih (k + 1) i h with ⟨m, hlen, hi, hmatch, hprev⟩
      refine ⟨m + 1, by simpa using hlen, by omega, ?_, ?_⟩
      · have he : k + (m + 1) = (k + 1) + m := by omega
        rw [he]
        simpa using hmatch
      · intro m' hm'
        cases m' with
        | zero => simpa using Bool.eq_false_iff.mpr hm
        | succ m'' =>
          have he : k + (m'' + 1) = (k + 1) + m'' := by omega
          rw [he]
          simpa using hprev m'' (by omega)

theorem findAux_error {tf pr : Nat} :
    ∀ (l : List VkMemoryType) (k : Nat) (msg : String),
    findMemoryTypeAux tf pr k l = Except.error msg →
    ∀ m, m < l.length → memTypeMatches tf pr (k + m) (l.getD m ⟨0⟩) = false := by
  intro l
  induction l with
  | nil => intro k msg _ m hm; simp at hm
  | cons mt rest ih =>
    intro k msg h m hm
    by_cases hmt : memTypeMatches tf pr k mt = true
    · rw [findMemoryTypeAux, if_pos hmt] at h
      simp at h
    · rw [findMemoryTypeAux, if_neg hmt] at h
      cases m with
      | zero => simpa using Bool.eq_false_iff.mpr hmt
      | succ m' =>
        have he : k + (m' + 1) = (k + 1) + m' := by omega
        rw [he]
        simpa using ih (k + 1) msg h m' (by simpa using hm)

theorem findAux_shape {tf pr : Nat} :
    ∀ (l : List VkMemoryType) (k : Nat),
    (∃ i, findMemoryTypeAux tf pr k l = Except.ok i) ∨
    findMemoryTypeAux tf pr k l = Except.error "failed to find suitable memory type!" := by
  intro l
  induction l with
  | nil => intro k; exact Or.inr rfl
  | cons mt rest ih =>
    intro k
    by_cases hmt : memTypeMatches tf pr k mt = true
    · exact Or.inl ⟨k, by rw [findMemoryTypeAux, if_pos hmt]⟩
    · rcases ih (k + 1) with ⟨i, hi⟩ | he
      · exact Or.inl ⟨i, by rw [findMemoryTypeAux, if_neg hmt]; exact hi⟩
      · exact Or.inr (by rw [findMemoryTypeAux, if_neg hmt]; exact he)

end VkModel

namespace VkModel

/-- C8: findMemoryType returns the smallest index i such that bit i of
typeFilter is set and the memory type's propertyFlags contain all requested
property bits, and throws (with its fixed message) exactly when no such index
exists; and transitionImageLayout succeeds exactly on the two supported
transitions, UNDEFINED to TRANSFER_DST_OPTIMAL and TRANSFER_DST_OPTIMAL to
SHADER_READ_ONLY_OPTIMAL, throwing on every other (oldLayout, newLayout)
pair. -/
theorem c8_findMemoryType_least_and_transition_support
    (memoryTypes : List VkMemoryType) (typeFilter properties : Nat)
    (oldLayout newLayout : VkImageLayout) :
    (∀ i, findMemoryType memoryTypes typeFilter properties = Except.ok i →
       memTypeOk typeFilter properties memoryTypes i ∧
       ∀ j, memTypeOk typeFilter properties memoryTypes j → i ≤ j) ∧
    (findMemoryType memoryTypes typeFilter properties =
        Except.error "failed to find suitable memory type!" ↔
       ∀ i, ¬ memTypeOk typeFilter properties memoryTypes i) ∧
    ((transitionImageLayoutMasks oldLayout newLayout).isOk = true ↔
       ((oldLayout = VkImageLayout.undefined ∧
         newLayout = VkImageLayout.transferDstOptimal) ∨
        (oldLayout = VkImageLayout.transferDstOptimal ∧
         newLayout = VkImageLayout.shaderReadOnlyOptimal))) := by
  refine ⟨?_, ⟨?_, ?_⟩, ?_⟩
  · intro i h
    rcases findAux_ok memoryTypes 0 i h with ⟨m, hlen, hi, hmatch, hprev⟩
    subst hi
    refine ⟨⟨by simpa using hlen, by simpa using hmatch⟩, ?_⟩
    intro j hj
    by_contra hlt
    obtain ⟨hj1, hj2⟩ := hj
    have hth := hprev j (by omega)
    rw [Nat.zero_add] at hth
    rw [hth] at hj2
    exact absurd hj2 (by simp)
  · intro h i hok
    obtain ⟨hok1, hok2⟩ := hok
    have hth := findAux_error memoryTypes 0 _ h i hok1
    rw [Nat.zero_add] at hth
    rw [hth] at hok2
    exact absurd hok2 (by simp)
  · intro hnone
    rcases findAux_shape memoryTypes 0 with ⟨i, hi⟩ | he
    · rcases findAux_ok memoryTypes 0 i hi with ⟨m, hlen, rfl, hmatch, _⟩
      exact absurd ⟨by simpa using hlen, by simpa using hmatch⟩ (hnone (0 + m))
    · exact he
  · cases oldLayout <;> cases newLayout <;>
      simp [transitionImageLayoutMasks, Except.isOk, Except.toBool]

/-- Witness for C8 at a concrete device: with typeFilter 2 (only bit 1 set)
and requested properties 5, the list [flags 0, flags 7] yields index 1, the
least matching index, and the UNDEFINED to TRANSFER_DST_OPTIMAL transition is
supported. -/
theorem c8_witness :
    (memTypeOk 2 5 [⟨0⟩, ⟨7⟩] 1 ∧ ∀ j, memTypeOk 2 5 [⟨0⟩, ⟨7⟩] j → 1 ≤ j) ∧
    (transitionImageLayoutMasks VkImageLayout.undefined
        VkImageLayout.transferDstOptimal).isOk = true :=
  ⟨(c8_findMemoryType_least_and_transition_support [⟨0⟩, ⟨7⟩] 2 5
      VkImageLayout.undefined VkImageLayout.transferDstOptimal).1 1 rfl,
   (c8_findMemoryType_least_and_transition_support [⟨0⟩, ⟨7⟩] 2 5
      VkImageLayout.undefined VkImageLayout.transferDstOptimal).2.2.mpr
     (Or.inl ⟨rfl, rfl⟩)⟩

end VkModel

namespace VkModel

theorem getD_lt_length {l : List FenceState} {i : Nat}
    (h : l.getD i FenceState.unsignaled ≠ FenceState.unsignaled) : i < l.length := by
  by_contra hge
  rw [List.getD_eq_default] at h
  · exact h rfl
  · omega

theorem fence_signaled_after_stale {l : List FenceState} {i : Nat} (hlt : i < l.length) :
    ((l.set i FenceState.signaled).map signalPending).getD i FenceState.unsignaled
      = FenceState.signaled := by
  rw [List.getD_eq_getElem _ _ (by simpa using hlt)]
  rw [List.getElem_map]
  rw [List.getElem_set_self (by simpa using hlt)]
  rfl

theorem recreateSwapChain_ok_rebuilds {env : RebuildEnv} {s st : AppState} {rtr : List Event}
    (hq : recreateSwapChain env s = (Step.ok st, rtr)) :
    Event.destroySwapchain ∈ rtr ∧
    ∃ w h, Event.createSwapchain env.imageCount w h ∈ rtr := by
  unfold recreateSwapChain at hq
  split at hq
  · simp at hq
  · rename_i ptr sz heq
    simp only [Prod.mk.injEq, Step.ok.injEq] at hq
    rcases hq with ⟨_, rfl⟩
    constructor
    · simp [cleanupSwapChain]
    · exact ⟨sz.1, sz.2, by rw [createChainResources_eq]; simp⟩

/-- C1: in a drawFrame iteration whose image acquisition reports
VK_ERROR_OUT_OF_DATE_KHR and which completes normally, the function performs a
swapchain rebuild (destroying and re-creating the swapchain) and returns
immediately: the trace contains no queue submission, no uniform update, no
present and no fence reset, the current slot's fence stays signaled for the
next wait, and the frame-slot index is not advanced. -/
theorem c1_stale_acquire_rebuild_and_return
    (inp : FrameInput) (s s' : AppState) (tr : List Event)
    (hacq : inp.acquireResult = VkResult.errorOutOfDateKHR)
    (hrun : drawFrame inp s = (Step.ok s', tr)) :
    s'.currentFrame = s.currentFrame ∧
    (∀ i img, Event.queueSubmit i img ∉ tr) ∧
    (∀ i, Event.resetFences i ∉ tr) ∧
    (∀ i, Event.updateUniform i ∉ tr) ∧
    (∀ i r, Event.queuePresent i r ∉ tr) ∧
    Event.destroySwapchain ∈ tr ∧
    (∃ w h, Event.createSwapchain inp.rebuildEnv.imageCount w h ∈ tr) ∧
    s'.inFlightFenceStates.getD s.currentFrame FenceState.unsignaled
      = FenceState.signaled := by
  have hne := drawFrame_fence_of_ok hrun
  have hlt := getD_lt_length hne
  rw [drawFrame_eq inp s hne, dfa_stale inp (afterWait s) hacq] at hrun
  rcases hq : recreateSwapChain inp.rebuildEnv (afterWait s) with ⟨st, rtr⟩
  rw [hq] at hrun
  cases st with
  | thrown m => simp at hrun
  | blocked => simp at hrun
  | ok s2 =>
    simp only [Prod.mk.injEq, Step.ok.injEq] at hrun
    rcases hrun with ⟨rfl, rfl⟩
    obtain ⟨e1, _, _, _, _, e6, _⟩ := recreateSwapChain_ok hq
    obtain ⟨hdest, hcreate⟩ := recreateSwapChain_ok_rebuilds hq
    have hrtr := recreateSwapChain_events inp.rebuildEnv (afterWait s)
    rw [hq] at hrtr
    refine ⟨by rw [e1]; rfl, ?_, ?_, ?_, ?_, ?_, ?_, ?_⟩
    · intro i img hm
      rcases List.mem_cons.1 hm with h | h
      · cases h
      rcases List.mem_cons.1 h with h | h
      · cases h
      have := hrtr _ h
      simp [isRebuildEvent] at this
    · intro i hm
      rcases List.mem_cons.1 hm with h | h
      · cases h
      rcases List.mem_cons.1 h with h | h
      · cases h
      have := hrtr _ h
      simp [isRebuildEvent] at this
    · intro i hm
      rcases List.mem_cons.1 hm with h | h
      · cases h
      rcases List.mem_cons.1 h with h | h
      · cases h
      have := hrtr _ h
      simp [isRebuildEvent] at this
    · intro i r hm
      rcases List.mem_cons.1 hm with h | h
      · cases h
      rcases List.mem_cons.1 h with h | h
      · cases h
      have := hrtr _ h
      simp [isRebuildEvent] at this
    · exact List.mem_cons_of_mem _ (List.mem_cons_of_mem _ hdest)
    · rcases hcreate with ⟨w, h, hc⟩
      exact ⟨w, h, List.mem_cons_of_mem _ (List.mem_cons_of_mem _ hc)⟩
    · rw [e6]
      exact fence_signaled_after_stale hlt

end VkModel

namespace VkModel

/-- State right after initialization with a driver-chosen swapchain image
count of 3, used as the concrete application state of the witnesses. -/
def sampleState : AppState := initApp 3

/-- Driver input: suboptimal acquire, successful submit and present. -/
def subOptInput : FrameInput :=
  ⟨VkResult.suboptimalKHR, 0, VkResult.success, VkResult.success, ⟨[(800, 600)], 3⟩⟩

theorem recreateSwapChain_poll_ok (env : RebuildEnv) (s : AppState)
    (hp : (pollLoop env.polls).2 ≠ none) :
    ∃ s' tr, recreateSwapChain env s = (Step.ok s', tr) := by
  unfold recreateSwapChain
  rcases hq : pollLoop env.polls with ⟨ptr, r⟩
  cases r with
  | none => rw [hq] at hp; simp at hp
  | some sz => exact ⟨_, _, rfl⟩

theorem count_destroy_map_zero {α : Type} (f : α → Event) (l : List α)
    (hf : ∀ a, f a ≠ Event.destroySwapchain) :
    (l.map f).count Event.destroySwapchain = 0 := by
  rw [List.count_eq_zero]
  intro hm
  rcases List.mem_map.1 hm with ⟨a, _, ha⟩
  exact hf a ha

theorem count_destroy_polls_zero (ps : List (Nat × Nat)) :
    (pollLoop ps).1.count Event.destroySwapchain = 0 := by
  rw [List.count_eq_zero]
  intro hm
  rcases pollLoop_trace_polls ps _ hm with ⟨w, h, he⟩
  simp at he

theorem cleanup_count_destroy (s : AppState) :
    (cleanupSwapChain s).2.count Event.destroySwapchain = 1 := by
  have hu : ((List.range s.swapChainImages.length).map
      (fun i => Event.destroyUniformBuffer (s.uniformBuffers[i]?.getD 0))).count
        Event.destroySwapchain = 0 :=
    count_destroy_map_zero _ _ (fun a => by simp)
  have hf : (s.swapChainFramebuffers.map Event.destroyFramebuffer).count
      Event.destroySwapchain = 0 :=
    count_destroy_map_zero _ _ (fun a => by simp)
  have hv : (s.swapChainImageViews.map Event.destroyImageView).count
      Event.destroySwapchain = 0 :=
    count_destroy_map_zero _ _ (fun a => by simp)
  simp [cleanupSwapChain, List.count_append, List.count_cons, hu, hf, hv]

theorem recreateSwapChain_count_destroy {env : RebuildEnv} {s st : AppState}
    {rtr : List Event} (hq : recreateSwapChain env s = (Step.ok st, rtr)) :
    rtr.count Event.destroySwapchain = 1 := by
  unfold recreateSwapChain at hq
  split at hq
  · simp at hq
  · rename_i ptr sz heq
    simp only [Prod.mk.injEq, Step.ok.injEq] at hq
    rcases hq with ⟨_, rfl⟩
    have h1 : ptr.count Event.destroySwapchain = 0 := by
      have h0 := count_destroy_polls_zero env.polls
      rw [heq] at h0
      exact h0
    rw [createChainResources_eq]
    simp [List.count_append, List.count_cons, h1, cleanup_count_destroy]

end VkModel


namespace VkModel

theorem dfa_present_rebuild (inp : FrameInput) (s : AppState)
    (hacq : inp.acquireResult = VkResult.success ∨ inp.acquireResult = VkResult.suboptimalKHR)
    (hsub : inp.submitResult = VkResult.success)
    (hpr : inp.presentResult = VkResult.errorOutOfDateKHR ∨
           inp.presentResult = VkResult.suboptimalKHR ∨ s.framebufferResized = true) :
    drawFrameAcquired inp s =
      (match (recreateSwapChain inp.rebuildEnv (afterSubmit s)).1 with
       | Step.ok s3 =>
         Step.ok { s3 with
             framebufferResized := false
             currentFrame := (s.currentFrame + 1) % MAX_FRAMES_IN_FLIGHT }
       | out => out,
       Event.acquireNextImage s.currentFrame inp.acquireResult ::
       Event.updateUniform inp.imageIndex :: Event.resetFences s.currentFrame ::
       Event.queueSubmit s.currentFrame inp.imageIndex ::
       Event.queuePresent inp.imageIndex inp.presentResult ::
         (recreateSwapChain inp.rebuildEnv (afterSubmit s)).2) := by
  have h1 : ¬ inp.acquireResult = VkResult.errorOutOfDateKHR := by
    rcases hacq with h | h <;> simp [h]
  have h2 : ¬(inp.acquireResult ≠ VkResult.success ∧
      inp.acquireResult ≠ VkResult.suboptimalKHR) := by
    rcases hacq with h | h <;> simp [h]
  have h3 : ¬ inp.submitResult ≠ VkResult.success := by simp [hsub]
  unfold drawFrameAcquired
  rw [if_neg h1, if_neg h2, if_neg h3, if_pos hpr]

/-- C4 counterexample: in the initialized state (resize flag clear), an
iteration whose acquire reports VK_SUBOPTIMAL_KHR and whose submit and present
succeed proceeds normally, but nothing records that a rebuild is due: the
resulting state still has the resize flag false and differs only in the
frame-slot advance and the slot fence now pending, and the trace contains no
rebuild at all - so the rebuild the claim says is recorded never happens. -/
theorem c4_counterexample :
    drawFrame subOptInput sampleState =
      (Step.ok { sampleState with
           currentFrame := 1
           inFlightFenceStates := [FenceState.pending, FenceState.signaled] },
       [Event.waitForFences 0 uint64Max true,
        Event.acquireNextImage 0 VkResult.suboptimalKHR,
        Event.updateUniform 0, Event.resetFences 0, Event.queueSubmit 0 0,
        Event.queuePresent 0 VkResult.success]) ∧
    (drawFrame subOptInput sampleState).2.count Event.destroySwapchain = 0 ∧
    sampleState.framebufferResized = false := by
  decide

/-- C4 (amended): when image acquisition returns VK_SUBOPTIMAL_KHR and the
iteration completes normally, it proceeds exactly like a successful acquire -
wait, acquire, uniform update, fence reset, submit, present - and the
suboptimal acquire status is discarded rather than recorded: a swapchain
rebuild happens after presentation exactly when the present call itself
returns out-of-date or suboptimal or the resize flag was set. -/
theorem c4_suboptimal_proceeds_no_record
    (inp : FrameInput) (s s' : AppState) (tr : List Event)
    (hacq : inp.acquireResult = VkResult.suboptimalKHR)
    (hrun : drawFrame inp s = (Step.ok s', tr)) :
    (∃ rest, tr = Event.waitForFences s.currentFrame uint64Max true ::
        Event.acquireNextImage s.currentFrame VkResult.suboptimalKHR ::
        Event.updateUniform inp.imageIndex :: Event.resetFences s.currentFrame ::
        Event.queueSubmit s.currentFrame inp.imageIndex ::
        Event.queuePresent inp.imageIndex inp.presentResult :: rest) ∧
    (Event.destroySwapchain ∈ tr ↔
      (inp.presentResult = VkResult.errorOutOfDateKHR ∨
       inp.presentResult = VkResult.suboptimalKHR ∨ s.framebufferResized = true)) := by
  have hne := drawFrame_fence_of_ok hrun
  rw [drawFrame_eq inp s hne] at hrun
  have hsub : inp.submitResult = VkResult.success := by
    by_contra hs
    rw [dfa_submit_fail inp (afterWait s) (Or.inr hacq) hs] at hrun
    simp at hrun
  by_cases hcond : inp.presentResult = VkResult.errorOutOfDateKHR ∨
      inp.presentResult = VkResult.suboptimalKHR ∨ s.framebufferResized = true
  · rw [dfa_present_rebuild inp (afterWait s) (Or.inr hacq) hsub hcond] at hrun
    rcases hq : recreateSwapChain inp.rebuildEnv (afterSubmit (afterWait s))
      with ⟨st, rtr⟩
    rw [hq] at hrun
    cases st with
    | thrown m => simp at hrun
    | blocked => simp at hrun
    | ok s3 =>
      simp only [Prod.mk.injEq, Step.ok.injEq] at hrun
      rcases hrun with ⟨rfl, rfl⟩
      refine ⟨⟨rtr, by simp [afterWait, hacq]⟩, ?_, ?_⟩
      · intro _; exact hcond
      · intro _
        refine List.mem_cons_of_mem _ (List.mem_cons_of_mem _ (List.mem_cons_of_mem _
          (List.mem_cons_of_mem _ (List.mem_cons_of_mem _ (List.mem_cons_of_mem _ ?_)))))
        exact (recreateSwapChain_ok_rebuilds hq).1
  · push_neg at hcond
    obtain ⟨hc1, hc2, hc3⟩ := hcond
    have hflag : s.framebufferResized = false := Bool.eq_false_iff.mpr hc3
    cases hpres : inp.presentResult with
    | success =>
      rw [dfa_present_success inp (afterWait s) (Or.inr hacq) hsub hpres hflag] at hrun
      simp only [Prod.mk.injEq, Step.ok.injEq] at hrun
      rcases hrun with ⟨rfl, rfl⟩
      refine ⟨⟨[], by simp [afterWait, hacq, hpres]⟩, ?_, ?_⟩
      · intro hmem
        rw [hacq, hpres] at hmem
        simp at hmem
      · intro hco
        rcases hco with h | h | h
        · exact absurd h (by simp [hpres])
        · exact absurd h (by simp [hpres])
        · exact absurd h (by simp [hflag])
    | suboptimalKHR => exact absurd hpres hc2
    | errorOutOfDateKHR => exact absurd hpres hc1
    | otherResult c =>
      rw [dfa_present_fail inp (afterWait s) (Or.inr hacq) hsub hpres hflag] at hrun
      simp at hrun

end VkModel

namespace VkModel

/-- Driver input: stale acquire (VK_ERROR_OUT_OF_DATE_KHR); the rebuild sees
one non-zero framebuffer size and a new image count of 3. -/
def staleInput : FrameInput :=
  ⟨VkResult.errorOutOfDateKHR, 0, VkResult.success, VkResult.success, ⟨[(800, 600)], 3⟩⟩

/-- State produced by the stale-acquire iteration from sampleState: the same
synchronization objects, freshly allocated per-image resources. -/
def staleResultState : AppState :=
  { currentFrame := 0, framebufferResized := false,
    imageAvailableSemaphores := [15, 18], renderFinishedSemaphores := [16, 19],
    inFlightFenceHandles := [17, 20],
    inFlightFenceStates := [FenceState.signaled, FenceState.signaled],
    swapChainImages := [21, 22, 23], swapChainImageViews := [24, 25, 26],
    swapChainFramebuffers := [27, 28, 29], uniformBuffers := [30, 31, 32],
    commandBuffers := [33, 34, 35], nextHandle := 36 }

/-- Trace of the stale-acquire iteration from sampleState. -/
def staleTrace : List Event :=
  [Event.waitForFences 0 uint64Max true,
   Event.acquireNextImage 0 VkResult.errorOutOfDateKHR,
   Event.pollFramebufferSize 800 600, Event.deviceWaitIdle,
   Event.destroyDescriptorPool,
   Event.destroyUniformBuffer 9, Event.destroyUniformBuffer 10,
   Event.destroyUniformBuffer 11, Event.freeCommandBuffers 3,
   Event.destroyFramebuffer 6, Event.destroyFramebuffer 7, Event.destroyFramebuffer 8,
   Event.destroyPipeline, Event.destroyPipelineLayout, Event.destroyRenderPass,
   Event.destroyImageView 3, Event.destroyImageView 4, Event.destroyImageView 5,
   Event.destroySwapchain,
   Event.createSwapchain 3 800 600, Event.createImageViews 3, Event.createRenderPass,
   Event.createGraphicsPipeline, Event.createFramebuffers 3,
   Event.createUniformBuffers 3, Event.createDescriptorPool,
   Event.createDescriptorSets 3, Event.createCommandBuffers 3]

/-- Witness for C1 at the concrete stale-acquire iteration from the
initialized state. -/
theorem c1_witness :
    staleResultState.currentFrame = sampleState.currentFrame ∧
    (∀ i img, Event.queueSubmit i img ∉ staleTrace) ∧
    (∀ i, Event.resetFences i ∉ staleTrace) ∧
    (∀ i, Event.updateUniform i ∉ staleTrace) ∧
    (∀ i r, Event.queuePresent i r ∉ staleTrace) ∧
    Event.destroySwapchain ∈ staleTrace ∧
    (∃ w h, Event.createSwapchain staleInput.rebuildEnv.imageCount w h ∈ staleTrace) ∧
    staleResultState.inFlightFenceStates.getD sampleState.currentFrame
      FenceState.unsignaled = FenceState.signaled :=
  c1_stale_acquire_rebuild_and_return staleInput sampleState staleResultState staleTrace
    rfl (by decide)

/-- Witness for the amended C4 at the concrete suboptimal-acquire iteration
from the initialized state. -/
theorem c4_witness :
    (∃ rest, [Event.waitForFences 0 uint64Max true,
        Event.acquireNextImage 0 VkResult.suboptimalKHR, Event.updateUniform 0,
        Event.resetFences 0, Event.queueSubmit 0 0,
        Event.queuePresent 0 VkResult.success] =
        Event.waitForFences sampleState.currentFrame uint64Max true ::
        Event.acquireNextImage sampleState.currentFrame VkResult.suboptimalKHR ::
        Event.updateUniform subOptInput.imageIndex ::
        Event.resetFences sampleState.currentFrame ::
        Event.queueSubmit sampleState.currentFrame subOptInput.imageIndex ::
        Event.queuePresent subOptInput.imageIndex subOptInput.presentResult :: rest) ∧
    (Event.destroySwapchain ∈ [Event.waitForFences 0 uint64Max true,
        Event.acquireNextImage 0 VkResult.suboptimalKHR, Event.updateUniform 0,
        Event.resetFences 0, Event.queueSubmit 0 0,
        Event.queuePresent 0 VkResult.success] ↔
      (subOptInput.presentResult = VkResult.errorOutOfDateKHR ∨
       subOptInput.presentResult = VkResult.suboptimalKHR ∨
       sampleState.framebufferResized = true)) :=
  c4_suboptimal_proceeds_no_record subOptInput sampleState
    { sampleState with
      currentFrame := 1
      inFlightFenceStates := [FenceState.pending, FenceState.signaled] }
    [Event.waitForFences 0 uint64Max true,
     Event.acquireNextImage 0 VkResult.suboptimalKHR, Event.updateUniform 0,
     Event.resetFences 0, Event.queueSubmit 0 0,
     Event.queuePresent 0 VkResult.success] rfl (by decide)

end VkModel

namespace VkModel

theorem callback_idem (s : AppState) :
    framebufferResizeCallback (framebufferResizeCallback s) = framebufferResizeCallback s := rfl

theorem callback_iterate_of_pos {k : Nat} (hk : 1 ≤ k) (s : AppState) :
    framebufferResizeCallback^[k] s = framebufferResizeCallback s := by
  have haux : ∀ n t, framebufferResizeCallback^[n] (framebufferResizeCallback t) =
      framebufferResizeCallback t := by
    intro n
    induction n with
    | zero => intro t; rfl
    | succ m ih =>
      intro t
      rw [Function.iterate_succ_apply, callback_idem]
      exact ih t
  rcases Nat.exists_eq_add_of_le hk with ⟨m, rfl⟩
  rw [Nat.add_comm, Function.iterate_succ_apply]
  exact haux m s

/-- C6: resize notifications are idempotent - the callback only sets the
resize flag, so delivering it k at least 1 times between two frames yields the
same state as delivering it once - and a drawFrame iteration that reaches
presentation with the flag set consumes it: it completes normally with the
flag reset to false and with exactly one swapchain rebuild in its trace. -/
theorem c6_resize_idempotent_single_rebuild
    (k : Nat) (s : AppState) (inp : FrameInput)
    (hk : 1 ≤ k)
    (hacq : inp.acquireResult = VkResult.success ∨ inp.acquireResult = VkResult.suboptimalKHR)
    (hsub : inp.submitResult = VkResult.success)
    (hflag : s.framebufferResized = true)
    (hfence : s.inFlightFenceStates.getD s.currentFrame FenceState.unsignaled ≠
              FenceState.unsignaled)
    (hpoll : (pollLoop inp.rebuildEnv.polls).2 ≠ none) :
    framebufferResizeCallback^[k] s = framebufferResizeCallback s ∧
    ∃ s' tr, drawFrame inp s = (Step.ok s', tr) ∧
      s'.framebufferResized = false ∧
      tr.count Event.destroySwapchain = 1 := by
  refine ⟨callback_iterate_of_pos hk s, ?_⟩
  obtain ⟨s3, rtr, hq⟩ :=
    recreateSwapChain_poll_ok inp.rebuildEnv (afterSubmit (afterWait s)) hpoll
  have hflag2 : (afterWait s).framebufferResized = true := hflag
  rw [drawFrame_eq inp s hfence,
      dfa_present_rebuild_ok (s := afterWait s) hacq hsub (Or.inr (Or.inr hflag2)) hq]
  refine ⟨_, _, rfl, rfl, ?_⟩
  have hcnt := recreateSwapChain_count_destroy hq
  simp [List.count_cons, hcnt]

/-- State with the resize flag set by one or more callbacks. -/
def flaggedState : AppState := framebufferResizeCallback sampleState

/-- Driver input with every status successful; the rebuild triggered by the
resize flag sees one non-zero framebuffer size and an image count of 3. -/
def successInput : FrameInput :=
  ⟨VkResult.success, 0, VkResult.success, VkResult.success, ⟨[(800, 600)], 3⟩⟩

/-- Witness for C6 with three resize notifications before the frame. -/
theorem c6_witness :
    framebufferResizeCallback^[3] flaggedState = framebufferResizeCallback flaggedState ∧
    ∃ s' tr, drawFrame successInput flaggedState = (Step.ok s', tr) ∧
      s'.framebufferResized = false ∧
      tr.count Event.destroySwapchain = 1 :=
  c6_resize_idempotent_single_rebuild 3 flaggedState successInput (by decide)
    (Or.inl rfl) rfl rfl (by decide) (by decide)

end VkModel

namespace VkModel

/-- Driver input whose present call fails with a status that is neither
success nor stale nor suboptimal (VK_ERROR_DEVICE_LOST = -4). -/
def presentOtherInput : FrameInput :=
  ⟨VkResult.success, 0, VkResult.success, VkResult.otherResult (-4), ⟨[(800, 600)], 3⟩⟩

/-- C7 counterexample: with the resize flag set, a present status outside the
three recoverable surface signals (here VK_ERROR_DEVICE_LOST) is NOT fatal:
the resize-flag disjunct of the present check (main.cpp 2094) absorbs it and
the iteration completes normally through the rebuild path, contradicting the
claim that every such status throws. -/
theorem c7_counterexample :
    flaggedState.framebufferResized = true ∧
    presentOtherInput.presentResult = VkResult.otherResult (-4) ∧
    presentOtherInput.presentResult ≠ VkResult.success ∧
    (drawFrame presentOtherInput flaggedState).1.isOk = true := by
  decide

/-- C7 (amended): in drawFrame every status other than success from acquire,
submit, or present is fatal - the thrown message propagates to main, which
prints it and returns a non-zero exit status - except the recoverable surface
signals: stale at acquire (rebuild and return), suboptimal at acquire
(proceed), stale or suboptimal at present (rebuild); additionally, when the
resize flag is set at presentation time, the rebuild branch absorbs ANY
present status, so a non-success present status is fatal only when the flag
is clear. -/
theorem c7_status_handling (inp : FrameInput) (s : AppState) (c : Int)
    (hfence : s.inFlightFenceStates.getD s.currentFrame FenceState.unsignaled ≠
              FenceState.unsignaled) :
    (inp.acquireResult = VkResult.otherResult c →
       (drawFrame inp s).1 = Step.thrown "Failed to acquire swap chain image!") ∧
    ((inp.acquireResult = VkResult.success ∨ inp.acquireResult = VkResult.suboptimalKHR) →
       inp.submitResult ≠ VkResult.success →
       (drawFrame inp s).1 = Step.thrown "Failed to submit draw command buffer!") ∧
    ((inp.acquireResult = VkResult.success ∨ inp.acquireResult = VkResult.suboptimalKHR) →
       inp.submitResult = VkResult.success →
       inp.presentResult = VkResult.otherResult c →
       s.framebufferResized = false →
       (drawFrame inp s).1 = Step.thrown "failed to present swap chain image!") ∧
    (inp.acquireResult = VkResult.errorOutOfDateKHR →
       (pollLoop inp.rebuildEnv.polls).2 ≠ none →
       (drawFrame inp s).1.isOk = true) ∧
    ((inp.acquireResult = VkResult.success ∨ inp.acquireResult = VkResult.suboptimalKHR) →
       inp.submitResult = VkResult.success →
       (inp.presentResult = VkResult.errorOutOfDateKHR ∨
        inp.presentResult = VkResult.suboptimalKHR ∨ s.framebufferResized = true) →
       (pollLoop inp.rebuildEnv.polls).2 ≠ none →
       (drawFrame inp s).1.isOk = true) ∧
    (∀ n steps msg, (runApp n steps).1 = Step.thrown msg →
       mainResult n steps = some (1, some msg) ∧ (1 : Nat) ≠ 0) := by
  refine ⟨?_, ?_, ?_, ?_, ?_, ?_⟩
  · intro h
    rw [drawFrame_eq inp s hfence, dfa_acquire_fail inp (afterWait s) h]
  · intro hacq hsubf
    rw [drawFrame_eq inp s hfence, dfa_submit_fail inp (afterWait s) hacq hsubf]
  · intro hacq hsub hpres hflag
    have hflag2 : (afterWait s).framebufferResized = false := hflag
    rw [drawFrame_eq inp s hfence,
        dfa_present_fail inp (afterWait s) hacq hsub hpres hflag2]
  · intro hacq hpoll
    obtain ⟨s2, rtr, hq⟩ := recreateSwapChain_poll_ok inp.rebuildEnv (afterWait s) hpoll
    rw [drawFrame_eq inp s hfence, dfa_stale inp (afterWait s) hacq, hq]
    rfl
  · intro hacq hsub hpr hpoll
    obtain ⟨s3, rtr, hq⟩ :=
      recreateSwapChain_poll_ok inp.rebuildEnv (afterSubmit (afterWait s)) hpoll
    have hpr2 : inp.presentResult = VkResult.errorOutOfDateKHR ∨
        inp.presentResult = VkResult.suboptimalKHR ∨
        (afterWait s).framebufferResized = true := hpr
    rw [drawFrame_eq inp s hfence,
        dfa_present_rebuild_ok (s := afterWait s) hacq hsub hpr2 hq]
    rfl
  · intro n steps msg h
    refine ⟨?_, by decide⟩
    rw [mainResult, h]

/-- Witness for the amended C7: with the resize flag set, the DEVICE_LOST
present status is absorbed by the rebuild path and the iteration completes
normally. -/
theorem c7_witness :
    (drawFrame presentOtherInput flaggedState).1.isOk = true :=
  (c7_status_handling presentOtherInput flaggedState (-4) (by decide)).2.2.2.2.1
    (Or.inl rfl) rfl (Or.inr (Or.inr rfl)) (by decide)

end VkModel

namespace VkModel

theorem no_submit_in_rebuild (env : RebuildEnv) (s : AppState) :
    ∀ i img, Event.queueSubmit i img ∉ (recreateSwapChain env s).2 := by
  intro i img hm
  have := recreateSwapChain_events env s _ hm
  simp [isRebuildEvent] at this

/-- C3: for N = MAX_FRAMES_IN_FLIGHT = 2, the frame-slot index of a reachable
state is always in [0, N); a completed drawFrame iteration that performed a
queue submission advances it by exactly +1 modulo N; and every queue
submission in an iteration targets the current slot and is preceded, at the
head of that same iteration's trace, by a wait on that slot's fence with the
effectively infinite uint64-max timeout that observed the fence signaled. -/
theorem c3_frame_slot_discipline
    (inp : FrameInput) (s s' : AppState) (tr : List Event)
    (hreach : Reachable s)
    (hrun : drawFrame inp s = (Step.ok s', tr)) :
    MAX_FRAMES_IN_FLIGHT = 2 ∧
    s.currentFrame < MAX_FRAMES_IN_FLIGHT ∧
    s'.currentFrame < MAX_FRAMES_IN_FLIGHT ∧
    ((∃ i img, Event.queueSubmit i img ∈ tr) →
       s'.currentFrame = (s.currentFrame + 1) % MAX_FRAMES_IN_FLIGHT) ∧
    (∀ i img, Event.queueSubmit i img ∈ tr →
       i = s.currentFrame ∧
       ∃ rest, tr = Event.waitForFences i uint64Max true :: rest ∧
         Event.queueSubmit i img ∈ rest) := by
  have hinv := reachable_inv hreach
  have hinv' := drawFrame_ok_inv hinv hrun
  have hne := drawFrame_fence_of_ok hrun
  rw [drawFrame_eq inp s hne] at hrun
  rcases hq : drawFrameAcquired inp (afterWait s) with ⟨st, tr2⟩
  rw [hq] at hrun
  simp only [Prod.mk.injEq] at hrun
  rcases hrun with ⟨hst, htr⟩
  subst htr
  subst hst
  have hmain :
      ((∃ i img, Event.queueSubmit i img ∈
          Event.waitForFences s.currentFrame uint64Max true :: tr2) →
        s'.currentFrame = (s.currentFrame + 1) % MAX_FRAMES_IN_FLIGHT) ∧
      (∀ i img, Event.queueSubmit i img ∈
          Event.waitForFences s.currentFrame uint64Max true :: tr2 →
        i = s.currentFrame ∧
        ∃ rest, Event.waitForFences s.currentFrame uint64Max true :: tr2 =
            Event.waitForFences i uint64Max true :: rest ∧
          Event.queueSubmit i img ∈ rest) := by
    unfold drawFrameAcquired at hq
    split at hq
    · -- stale acquire: rebuild, no submission in the trace
      rcases hq2 : recreateSwapChain inp.rebuildEnv (afterWait s) with ⟨st2, rtr⟩
      rw [hq2] at hq
      cases st2 with
      | thrown m => simp at hq
      | blocked => simp at hq
      | ok s2 =>
        simp only [Prod.mk.injEq, Step.ok.injEq] at hq
        rcases hq with ⟨rfl, rfl⟩
        have hnosub : ∀ i img, Event.queueSubmit i img ∉
            Event.waitForFences s.currentFrame uint64Max true ::
              Event.acquireNextImage (afterWait s).currentFrame
                inp.acquireResult :: rtr := by
          intro i img hmem
          rcases List.mem_cons.1 hmem with h | h
          · cases h
          rcases List.mem_cons.1 h with h | h
          · cases h
          have hns := no_submit_in_rebuild inp.rebuildEnv (afterWait s) i img
          rw [hq2] at hns
          exact hns h
        constructor
        · rintro ⟨i, img, hmem⟩
          exact absurd hmem (hnosub i img)
        · intro i img hmem
          exact absurd hmem (hnosub i img)
    · split at hq
      · simp at hq
      · split at hq
        · simp at hq
        · split at hq
          · -- present-triggered rebuild
            rcases hq2 : recreateSwapChain inp.rebuildEnv (afterSubmit (afterWait s))
              with ⟨st2, rtr⟩
            rw [hq2] at hq
            cases st2 with
            | thrown m => simp at hq
            | blocked => simp at hq
            | ok s3 =>
              simp only [Prod.mk.injEq, Step.ok.injEq] at hq
              rcases hq with ⟨rfl, rfl⟩
              constructor
              · intro _; rfl
              · intro i img hmem
                rcases List.mem_cons.1 hmem with h | hmem2
                · cases h
                have hi : i = s.currentFrame ∧ img = inp.imageIndex := by
                  rcases List.mem_cons.1 hmem2 with h | h
                  · cases h
                  rcases List.mem_cons.1 h with h | h
                  · cases h
                  rcases List.mem_cons.1 h with h | h
                  · cases h
                  rcases List.mem_cons.1 h with h | h
                  · injection h with h1 h2; exact ⟨h1, h2⟩
                  rcases List.mem_cons.1 h with h | h
                  · cases h
                  · exfalso
                    have hns := no_submit_in_rebuild inp.rebuildEnv
                      (afterSubmit (afterWait s)) i img
                    rw [hq2] at hns
                    exact hns h
                exact ⟨hi.1, _, by rw [hi.1], hmem2⟩
          · split at hq
            · simp at hq
            · -- successful presentation
              simp only [Prod.mk.injEq, Step.ok.injEq] at hq
              rcases hq with ⟨rfl, rfl⟩
              constructor
              · intro _; rfl
              · intro i img hmem
                rcases List.mem_cons.1 hmem with h | hmem2
                · cases h
                have hi : i = s.currentFrame ∧ img = inp.imageIndex := by
                  rcases List.mem_cons.1 hmem2 with h | h
                  · cases h
                  rcases List.mem_cons.1 h with h | h
                  · cases h
                  rcases List.mem_cons.1 h with h | h
                  · cases h
                  rcases List.mem_cons.1 h with h | h
                  · injection h with h1 h2; exact ⟨h1, h2⟩
                  rcases List.mem_cons.1 h with h | h
                  · cases h
                  · simp at h
                exact ⟨hi.1, _, by rw [hi.1], hmem2⟩
    
  exact ⟨rfl, hinv.1, hinv'.1, hmain.1, hmain.2⟩

/-- Witness for C3 at the all-success iteration from the initialized state. -/
theorem c3_witness :
    MAX_FRAMES_IN_FLIGHT = 2 ∧
    sampleState.currentFrame < MAX_FRAMES_IN_FLIGHT ∧
    ({ sampleState with
       currentFrame := 1
       inFlightFenceStates := [FenceState.pending, FenceState.signaled]
       : AppState }).currentFrame < MAX_FRAMES_IN_FLIGHT ∧
    ((∃ i img, Event.queueSubmit i img ∈
        [Event.waitForFences 0 uint64Max true,
         Event.acquireNextImage 0 VkResult.success, Event.updateUniform 0,
         Event.resetFences 0, Event.queueSubmit 0 0,
         Event.queuePresent 0 VkResult.success]) →
       ({ sampleState with
          currentFrame := 1
          inFlightFenceStates := [FenceState.pending, FenceState.signaled]
          : AppState }).currentFrame =
         (sampleState.currentFrame + 1) % MAX_FRAMES_IN_FLIGHT) ∧
    (∀ i img, Event.queueSubmit i img ∈
        [Event.waitForFences 0 uint64Max true,
         Event.acquireNextImage 0 VkResult.success, Event.updateUniform 0,
         Event.resetFences 0, Event.queueSubmit 0 0,
         Event.queuePresent 0 VkResult.success] →
       i = sampleState.currentFrame ∧
       ∃ rest, [Event.waitForFences 0 uint64Max true,
           Event.acquireNextImage 0 VkResult.success, Event.updateUniform 0,
           Event.resetFences 0, Event.queueSubmit 0 0,
           Event.queuePresent 0 VkResult.success] =
           Event.waitForFences i uint64Max true :: rest ∧
         Event.queueSubmit i img ∈ rest) :=
  c3_frame_slot_discipline successInput sampleState
    { sampleState with
      currentFrame := 1
      inFlightFenceStates := [FenceState.pending, FenceState.signaled] }
    [Event.waitForFences 0 uint64Max true,
     Event.acquireNextImage 0 VkResult.success, Event.updateUniform 0,
     Event.resetFences 0, Event.queueSubmit 0 0,
     Event.queuePresent 0 VkResult.success]
    (Reachable.init 3) (by decide)

end VkModel

namespace VkModel

/-- C10: all MAX_FRAMES_IN_FLIGHT fences are created in the signaled state
(VK_FENCE_CREATE_SIGNALED_BIT); a swapchain rebuild neither destroys nor
recreates any semaphore or fence (their handle vectors are untouched and no
destroy call for them appears in the rebuild trace); and on every reachable
state the opening vkWaitForFences of drawFrame returns, observing a signaled
fence, rather than blocking forever - in particular right after creation and
after a stale-acquire early return, which skips the fence reset. -/
theorem c10_fences_signaled_and_preserved
    (s : AppState) (env : RebuildEnv) (hreach : Reachable s) :
    (∀ s0 : AppState, (createSyncObjects s0).inFlightFenceStates =
       List.replicate MAX_FRAMES_IN_FLIGHT FenceState.signaled) ∧
    (∀ s1 tr, recreateSwapChain env s = (Step.ok s1, tr) →
       s1.imageAvailableSemaphores = s.imageAvailableSemaphores ∧
       s1.renderFinishedSemaphores = s.renderFinishedSemaphores ∧
       s1.inFlightFenceHandles = s.inFlightFenceHandles ∧
       (∀ h, Event.destroyFence h ∉ tr) ∧
       (∀ h, Event.destroySemaphore h ∉ tr)) ∧
    (∀ inp, ∃ rest, (drawFrame inp s).2 =
       Event.waitForFences s.currentFrame uint64Max true :: rest) := by
  obtain ⟨hcf, _, _, _, hlen, _, _, _, _, hfen, _⟩ := reachable_inv hreach
  refine ⟨fun s0 => rfl, ?_, ?_⟩
  · intro s1 tr hr
    obtain ⟨_, _, e3, e4, e5, _⟩ := recreateSwapChain_ok hr
    refine ⟨e3, e4, e5, ?_, ?_⟩
    · intro h hm
      have hk := recreateSwapChain_events env s (Event.destroyFence h) (by rw [hr]; exact hm)
      simp [isRebuildEvent] at hk
    · intro h hm
      have hk := recreateSwapChain_events env s (Event.destroySemaphore h)
        (by rw [hr]; exact hm)
      simp [isRebuildEvent] at hk
  · intro inp
    have hlt : s.currentFrame < s.inFlightFenceStates.length := by rw [hlen]; exact hcf
    have hne : s.inFlightFenceStates.getD s.currentFrame FenceState.unsignaled ≠
        FenceState.unsignaled := by
      rw [List.getD_eq_getElem _ _ hlt]
      exact hfen _ (List.getElem_mem hlt)
    rw [drawFrame_eq inp s hne]
    exact ⟨_, rfl⟩

/-- Witness for C10 at the initialized state with an arbitrary rebuild
environment. -/
theorem c10_witness :
    (∀ s0 : AppState, (createSyncObjects s0).inFlightFenceStates =
       List.replicate MAX_FRAMES_IN_FLIGHT FenceState.signaled) ∧
    (∀ s1 tr, recreateSwapChain ⟨[(800, 600)], 3⟩ sampleState = (Step.ok s1, tr) →
       s1.imageAvailableSemaphores = sampleState.imageAvailableSemaphores ∧
       s1.renderFinishedSemaphores = sampleState.renderFinishedSemaphores ∧
       s1.inFlightFenceHandles = sampleState.inFlightFenceHandles ∧
       (∀ h, Event.destroyFence h ∉ tr) ∧
       (∀ h, Event.destroySemaphore h ∉ tr)) ∧
    (∀ inp, ∃ rest, (drawFrame inp sampleState).2 =
       Event.waitForFences sampleState.currentFrame uint64Max true :: rest) :=
  c10_fences_signaled_and_preserved sampleState ⟨[(800, 600)], 3⟩ (Reachable.init 3)

/-- C2: at every reachable state the numbers of image-available semaphores,
render-finished semaphores and in-flight fences each equal
MAX_FRAMES_IN_FLIGHT = 2, independent of the swapchain image count, while the
numbers of framebuffers, command buffers and uniform buffers each equal the
current swapchain image count; and after any successful rebuild the per-image
vectors have the new image count and hold freshly allocated handles, disjoint
from the handles they held before. -/
theorem c2_resource_counts (s : AppState) (hreach : Reachable s) :
    MAX_FRAMES_IN_FLIGHT = 2 ∧
    s.imageAvailableSemaphores.length = MAX_FRAMES_IN_FLIGHT ∧
    s.renderFinishedSemaphores.length = MAX_FRAMES_IN_FLIGHT ∧
    s.inFlightFenceHandles.length = MAX_FRAMES_IN_FLIGHT ∧
    s.swapChainFramebuffers.length = s.swapChainImages.length ∧
    s.commandBuffers.length = s.swapChainImages.length ∧
    s.uniformBuffers.length = s.swapChainImages.length ∧
    (∀ env s' tr, recreateSwapChain env s = (Step.ok s', tr) →
       s'.swapChainImages.length = env.imageCount ∧
       s'.swapChainFramebuffers.length = env.imageCount ∧
       s'.commandBuffers.length = env.imageCount ∧
       s'.uniformBuffers.length = env.imageCount ∧
       (∀ h ∈ s'.swapChainFramebuffers, h ∉ s.swapChainFramebuffers) ∧
       (∀ h ∈ s'.commandBuffers, h ∉ s.commandBuffers) ∧
       (∀ h ∈ s'.uniformBuffers, h ∉ s.uniformBuffers)) := by
  obtain ⟨hcf, h1, h2, h3, h4, h5, h6, h7, h8, hfen, m1, m2, m3, m4, m5⟩ :=
    reachable_inv hreach
  refine ⟨rfl, h1, h2, h3, h6, h8, h7, ?_⟩
  intro env s' tr hr
  obtain ⟨_, _, _, _, _, _, l1, _, l3, l4, l5, _, _, _, f3, f4, f5⟩ :=
    recreateSwapChain_ok hr
  refine ⟨l1, l3, l5, l4, ?_, ?_, ?_⟩
  · intro h hm hold
    have := (f3 h hm).1
    have := m3 h hold
    omega
  · intro h hm hold
    have := (f5 h hm).1
    have := m5 h hold
    omega
  · intro h hm hold
    have := (f4 h hm).1
    have := m4 h hold
    omega

/-- Witness for C2 at the initialized state. -/
theorem c2_witness :
    MAX_FRAMES_IN_FLIGHT = 2 ∧
    sampleState.imageAvailableSemaphores.length = MAX_FRAMES_IN_FLIGHT ∧
    sampleState.renderFinishedSemaphores.length = MAX_FRAMES_IN_FLIGHT ∧
    sampleState.inFlightFenceHandles.length = MAX_FRAMES_IN_FLIGHT ∧
    sampleState.swapChainFramebuffers.length = sampleState.swapChainImages.length ∧
    sampleState.commandBuffers.length = sampleState.swapChainImages.length ∧
    sampleState.uniformBuffers.length = sampleState.swapChainImages.length ∧
    (∀ env s' tr, recreateSwapChain env sampleState = (Step.ok s', tr) →
       s'.swapChainImages.length = env.imageCount ∧
       s'.swapChainFramebuffers.length = env.imageCount ∧
       s'.commandBuffers.length = env.imageCount ∧
       s'.uniformBuffers.length = env.imageCount ∧
       (∀ h ∈ s'.swapChainFramebuffers, h ∉ sampleState.swapChainFramebuffers) ∧
       (∀ h ∈ s'.commandBuffers, h ∉ sampleState.commandBuffers) ∧
       (∀ h ∈ s'.uniformBuffers, h ∉ sampleState.uniformBuffers)) :=
  c2_resource_counts sampleState (Reachable.init 3)

end VkModel

namespace VkModel

theorem mainLoop_ok_trace :
    ∀ (steps : List LoopStep) (s s' : AppState) (tr : List Event),
    mainLoop steps s = (Step.ok s', tr) →
    ∃ pre, tr = pre ++ [Event.deviceWaitIdle] := by
  intro steps
  induction steps with
  | nil =>
    intro s s' tr h
    simp only [mainLoop, Prod.mk.injEq] at h
    exact ⟨[], by rw [← h.2]; rfl⟩
  | cons st rest ih =>
    intro s s' tr h
    rw [mainLoop] at h
    by_cases hc : st.shouldClose
    · rw [if_pos hc] at h
      simp only [Prod.mk.injEq] at h
      exact ⟨[], by rw [← h.2]; rfl⟩
    · rw [if_neg hc] at h
      rcases hd : drawFrame st.frame (pollEventsM st.resizeEvents s) with ⟨dst, dtr⟩
      rw [hd] at h
      cases dst with
      | thrown m => simp at h
      | blocked => simp at h
      | ok s2 =>
        simp only [Prod.mk.injEq] at h
        rcases h with ⟨h1, h2⟩
        rcases hm : mainLoop rest s2 with ⟨mst, mtr⟩
        rw [hm] at h1 h2
        rcases ih s2 s' mtr (by rw [hm, show mst = Step.ok s' from h1]) with ⟨pre, hpre⟩
        exact ⟨Event.pollEvents :: (dtr ++ pre), by rw [← h2, hpre]; simp⟩

/-- C9: the window-close flag is sampled only between iterations - when it is
set, the loop ends before polling or drawing, and when it is clear, the full
drawFrame trace of the iteration is emitted before anything else happens -
and whenever the loop finishes normally, its trace ends with vkDeviceWaitIdle
and every resource destruction of cleanup comes after that idle wait. -/
theorem c9_close_between_iterations_and_drain
    (n : Nat) (steps rest : List LoopStep) (st : LoopStep) (s : AppState) :
    (st.shouldClose = true →
       mainLoop (st :: rest) s =
         (Step.ok (deviceWaitIdleF s), [Event.deviceWaitIdle])) ∧
    (st.shouldClose = false →
       ∃ tail, (mainLoop (st :: rest) s).2 =
         Event.pollEvents ::
           ((drawFrame st.frame (pollEventsM st.resizeEvents s)).2 ++ tail)) ∧
    (∀ s' ltr, mainLoop steps (initApp n) = (Step.ok s', ltr) →
       ∃ pre, ltr = pre ++ [Event.deviceWaitIdle] ∧
         (runApp n steps).2 = pre ++ Event.deviceWaitIdle :: cleanupTrace s') := by
  refine ⟨?_, ?_, ?_⟩
  · intro hc
    rw [mainLoop, if_pos hc]
  · intro hc
    rw [mainLoop, if_neg (by rw [hc]; exact Bool.false_ne_true)]
    rcases hd : drawFrame st.frame (pollEventsM st.resizeEvents s) with ⟨dst, dtr⟩
    cases dst with
    | ok s2 => exact ⟨(mainLoop rest s2).2, rfl⟩
    | thrown m => exact ⟨[], by simp⟩
    | blocked => exact ⟨[], by simp⟩
  · intro s' ltr h
    rcases mainLoop_ok_trace steps (initApp n) s' ltr h with ⟨pre, hpre⟩
    refine ⟨pre, hpre, ?_⟩
    rw [runApp, h, hpre]
    simp

/-- Witness for C9: a single loop step whose close flag is already set. -/
theorem c9_witness :
    mainLoop [⟨true, 0, successInput⟩] sampleState =
      (Step.ok (deviceWaitIdleF sampleState), [Event.deviceWaitIdle]) ∧
    ∃ pre, [Event.deviceWaitIdle] = pre ++ [Event.deviceWaitIdle] ∧
      (runApp 3 [⟨true, 0, successInput⟩]).2 =
        pre ++ Event.deviceWaitIdle ::
          cleanupTrace (deviceWaitIdleF (initApp 3)) :=
  ⟨(c9_close_between_iterations_and_drain 3 [⟨true, 0, successInput⟩] []
      ⟨true, 0, successInput⟩ sampleState).1 rfl,
   (c9_close_between_iterations_and_drain 3 [⟨true, 0, successInput⟩] []
      ⟨true, 0, successInput⟩ sampleState).2.2 (deviceWaitIdleF (initApp 3))
     [Event.deviceWaitIdle] (by decide)⟩

end VkModel

namespace VkModel

/-- C5: a swapchain rebuild never proceeds while the observed framebuffer
width or height is zero - if every observed size has a zero dimension the
rebuild stays blocked in the poll loop, its trace containing nothing but size
polls (no idle wait, no destruction, and in particular no swapchain creation
with a zero extent) - and once a non-zero size is observed (every earlier
sample having had a zero dimension), the rebuild performs, in exactly this
order: the polls, vkDeviceWaitIdle, then destruction of the descriptor pool,
per-image uniform buffers, command buffers, framebuffers, pipeline, pipeline
layout, render pass, image views and the swapchain, and only afterwards
re-creates the chain from the found window dimensions. -/
theorem c5_rebuild_order (env : RebuildEnv) (s : AppState) :
    ((pollLoop env.polls).2 = none →
       (recreateSwapChain env s).1 = Step.blocked ∧
       ∀ e ∈ (recreateSwapChain env s).2, ∃ w h, e = Event.pollFramebufferSize w h) ∧
    (∀ w h, (pollLoop env.polls).2 = some (w, h) →
       w ≠ 0 ∧ h ≠ 0 ∧
       (∃ pre, (pollLoop env.polls).1 = pre ++ [Event.pollFramebufferSize w h] ∧
          ∀ e ∈ pre, ∃ w0 h0, e = Event.pollFramebufferSize w0 h0 ∧
            (w0 = 0 ∨ h0 = 0)) ∧
       (recreateSwapChain env s).2 =
         (pollLoop env.polls).1 ++
         Event.deviceWaitIdle ::
         ((Event.destroyDescriptorPool ::
            ((List.range s.swapChainImages.length).map
               (fun i => Event.destroyUniformBuffer (s.uniformBuffers.getD i 0)) ++
             [Event.freeCommandBuffers s.commandBuffers.length] ++
             s.swapChainFramebuffers.map Event.destroyFramebuffer ++
             [Event.destroyPipeline, Event.destroyPipelineLayout,
              Event.destroyRenderPass] ++
             s.swapChainImageViews.map Event.destroyImageView ++
             [Event.destroySwapchain])) ++
          [Event.createSwapchain env.imageCount w h,
           Event.createImageViews env.imageCount, Event.createRenderPass,
           Event.createGraphicsPipeline, Event.createFramebuffers env.imageCount,
           Event.createUniformBuffers env.imageCount, Event.createDescriptorPool,
           Event.createDescriptorSets env.imageCount,
           Event.createCommandBuffers env.imageCount])) := by
  constructor
  · intro hnone
    unfold recreateSwapChain
    rcases hq : pollLoop env.polls with ⟨ptr, r⟩
    cases r with
    | none =>
      refine ⟨rfl, ?_⟩
      intro e he
      have := pollLoop_trace_polls env.polls e (by rw [hq]; exact he)
      exact this
    | some sz => rw [hq] at hnone; simp at hnone
  · intro w h hsome
    obtain ⟨hw, hh, pre, hpre, hzero⟩ := pollLoop_some hsome
    refine ⟨hw, hh, ⟨pre, hpre, hzero⟩, ?_⟩
    unfold recreateSwapChain
    rcases hq : pollLoop env.polls with ⟨ptr, r⟩
    cases r with
    | none => rw [hq] at hsome; simp at hsome
    | some sz =>
      have h2 : sz = (w, h) := by rw [hq] at hsome; simpa using hsome
      subst h2
      simp [cleanupSwapChain, deviceWaitIdleF, createChainResources_eq,
        show (pollLoop env.polls).1 = ptr from by rw [hq]]

end VkModel

namespace VkModel

/-- Witness for C5: a rebuild that first observes a minimized (zero) size and
then 800 x 600, from the initialized state; and a rebuild that only ever
observes zero sizes and stays blocked. -/
theorem c5_witness :
    ((recreateSwapChain ⟨[(0, 0), (0, 5)], 3⟩ sampleState).1 = Step.blocked ∧
     ∀ e ∈ (recreateSwapChain ⟨[(0, 0), (0, 5)], 3⟩ sampleState).2,
       ∃ w h, e = Event.pollFramebufferSize w h) ∧
    ((800 : Nat) ≠ 0 ∧ (600 : Nat) ≠ 0 ∧
     (∃ pre, (pollLoop [(0, 0), (800, 600)]).1 =
        pre ++ [Event.pollFramebufferSize 800 600] ∧
        ∀ e ∈ pre, ∃ w0 h0, e = Event.pollFramebufferSize w0 h0 ∧
          (w0 = 0 ∨ h0 = 0)) ∧
     (recreateSwapChain ⟨[(0, 0), (800, 600)], 3⟩ sampleState).2 =
       (pollLoop [(0, 0), (800, 600)]).1 ++
       Event.deviceWaitIdle ::
       ((Event.destroyDescriptorPool ::
          ((List.range sampleState.swapChainImages.length).map
             (fun i => Event.destroyUniformBuffer (sampleState.uniformBuffers.getD i 0)) ++
           [Event.freeCommandBuffers sampleState.commandBuffers.length] ++
           sampleState.swapChainFramebuffers.map Event.destroyFramebuffer ++
           [Event.destroyPipeline, Event.destroyPipelineLayout,
            Event.destroyRenderPass] ++
           sampleState.swapChainImageViews.map Event.destroyImageView ++
           [Event.destroySwapchain])) ++
        [Event.createSwapchain 3 800 600, Event.createImageViews 3,
         Event.createRenderPass, Event.createGraphicsPipeline,
         Event.createFramebuffers 3, Event.createUniformBuffers 3,
         Event.createDescriptorPool, Event.createDescriptorSets 3,
         Event.createCommandBuffers 3])) :=
  ⟨(c5_rebuild_order ⟨[(0, 0), (0, 5)], 3⟩ sampleState).1 (by decide),
   (c5_rebuild_order ⟨[(0, 0), (800, 600)], 3⟩ sampleState).2 800 600 (by decide)⟩

end VkModel
